import Mathlib

/-!
Shallow embedding of the swap-chain and buffer lifecycle manager of
`src/armsoc_dri2.c` (xf86-video-armsoc).

Modelling conventions:
* Machine state that the C file mutates is gathered in `SwapState`:
  the pixmap-to-buffer-object map, per-bo data (name, framebuffer id,
  dimensions), reference counters, the process-wide `pending_flips`
  counter, plus observation logs (`notifyLog` records every call of the
  external notifier `DRI2SwapComplete`, `copies` counts `CopyArea`
  executions, `flipReqs` counts `drmmode_page_flip` requests,
  `addFbAttempts` counts `armsoc_bo_add_fb` attempts, `completedCmds`
  records each swap command at the moment it is freed by the completion
  handler).
* External collaborators that the C file only calls (pixmap allocation,
  the kernel page-flip issuer, framebuffer attach) are modelled by
  oracle fields of `Env`: their results are inputs of the model, their
  effects on our state are translated from the code.
* Pixmaps and buffer objects are identified by `Nat` ids; `pixBo` is a
  total map (the `!bo` null-check branches of the C file are dead in
  the model and noted where they occur).
* C `int` counters become `Int`; array indices become `Nat`.
-/

namespace ArmsocDRI2

/-- DRI2 buffer attachment points (only the ones the file distinguishes). -/
inductive Attachment
  | FrontLeft
  | BackLeft
  | Other
deriving DecidableEq, Repr

/-- dri2proto completion kind constants. -/
def DRI2_EXCHANGE_COMPLETE : Nat := 1

def DRI2_BLIT_COMPLETE : Nat := 2

def DRI2_FLIP_COMPLETE : Nat := 3

/-- `struct ARMSOCDRI2BufferRec`: the DRI2 buffer wrapper.  `name` is the
cross-process export name of the current backing bo; `pPixmaps` is the slot
ring (a `none` slot is a NULL entry); `refcnt` and `attempted_fb_alloc`
are as in the C struct.  The pitch/cpp/format fields are copied from
external collaborators and never read back by this file's logic, so they
are omitted. -/
structure Buf where
  attachment : Attachment
  name : Nat
  pPixmaps : List (Option Nat)
  currentPixmap : Nat
  numPixmaps : Nat
  refcnt : Int
  attempted_fb_alloc : Bool
deriving DecidableEq, Repr

/-- Data of one `armsoc_bo` memory object: export name, attached
framebuffer id (0 = none), and dimensions. -/
structure BoData where
  boName : Nat
  fbId : Nat
  width : Nat
  height : Nat
deriving DecidableEq, Repr

/-- One recorded invocation of the external completion notifier
`DRI2SwapComplete(client, draw, 0, 0, 0, kind, func, data)`. -/
structure NotifyEvent where
  client : Nat
  kind : Nat
  func : Nat
  cbData : Nat
deriving DecidableEq, Repr

/-- `struct ARMSOCDRISwapCmd`. -/
structure SwapCmd where
  ctype : Nat
  client : Nat
  srcId : Nat
  dstId : Nat
  swapCount : Int
  flagFake : Bool
  flagFail : Bool
  func : Nat
  cbData : Nat
deriving DecidableEq, Repr

/-- The mutable state the file acts on, plus observation logs. -/
structure SwapState where
  /-- pixmap id ↦ backing bo id (`ARMSOCPixmapBo`, total in the model) -/
  pixBo : Nat → Nat
  /-- bo id ↦ bo data -/
  bo : Nat → BoData
  /-- bo id ↦ `armsoc_bo` reference count -/
  boRef : Nat → Int
  /-- pixmap id ↦ pixmap reference count -/
  pixRef : Nat → Int
  /-- buffer id ↦ DRI2 buffer record -/
  bufs : Nat → Buf
  /-- whether `dixLookupDrawable` on the command's stable id succeeds -/
  drawExists : Bool
  /-- pixmap id of the drawable's own pixmap (`draw2pix(pDraw)`) -/
  drawPix : Nat
  /-- process-wide in-flight flip counter (`pARMSOC->pending_flips`) -/
  pending_flips : Int
  /-- log of external notifier invocations -/
  notifyLog : List NotifyEvent
  /-- bo currently published by `set_scanout_bo` -/
  scanout : Option Nat
  /-- number of `CopyArea` blits executed -/
  copies : Nat
  /-- number of `drmmode_page_flip` requests issued -/
  flipReqs : Nat
  /-- number of `armsoc_bo_add_fb` attempts -/
  addFbAttempts : Nat
  /-- swap commands recorded at the end of their completion handler -/
  completedCmds : List SwapCmd

/-- Oracle inputs: user configuration and the results of external calls. -/
structure Env where
  /-- `pARMSOC->NoFlip` (flipping disabled by user option) -/
  noFlip : Bool
  /-- `pDraw->type == DRAWABLE_WINDOW` -/
  drawIsWindow : Bool
  /-- `DRI2CanFlip(pDraw)` -/
  dri2CanFlip : Bool
  /-- `pARMSOC->driNumBufs` -/
  driNumBufs : Nat
  /-- `pARMSOC->drmmode_interface->use_page_flip_events` -/
  useFlipEvents : Bool
  /-- result of `drmmode_page_flip` -/
  pageFlipRet : Int
  /-- whether `calloc` of the swap command succeeds -/
  allocCmdOk : Bool
  /-- whether `calloc` of the buffer record succeeds -/
  allocBufOk : Bool
  /-- whether alloc of the `pPixmaps` array succeeds -/
  allocRingOk : Bool
  /-- whether `armsoc_bo_add_fb` succeeds -/
  addFbOk : Bool
  /-- result of `pScreen->CreatePixmap`: fresh (pixmap id, bo id), or none -/
  createPix : Option (Nat × Nat)
  /-- export name of a freshly created pixmap's bo -/
  freshBoName : Nat
  /-- framebuffer id handed out by a successful `armsoc_bo_add_fb` -/
  newFbId : Nat
  /-- drawable width/height -/
  drawW : Nat
  drawH : Nat

/-- Point update of a map with `Nat` keys. -/
def updFn {α : Type} (f : Nat → α) (i : Nat) (v : α) : Nat → α :=
  fun j => if j = i then v else f j

/-- Replace the buffer record stored under id `i`. -/
def updBuf (st : SwapState) (i : Nat) (b : Buf) : SwapState :=
  { st with bufs := updFn st.bufs i b }

/-- `buf->pPixmaps[i]` (the stand-in id 0 is returned for a NULL slot;
never reached under the invariants the code maintains). -/
def bufPix (b : Buf) (i : Nat) : Nat :=
  (b.pPixmaps.getD i none).getD 0

/-- `canflip(pDraw)`. -/
def canflip (env : Env) : Bool :=
  if env.noFlip then
    false
  else
    env.drawIsWindow && env.dri2CanFlip

/-- Pixmap underlying `dri2draw(pDraw, buf)`: the drawable's own pixmap
for the front buffer, else the current ring slot. -/
def dri2drawPix (st : SwapState) (bufId : Nat) : Nat :=
  if (st.bufs bufId).attachment = Attachment.FrontLeft then
    st.drawPix
  else
    bufPix (st.bufs bufId) (st.bufs bufId).currentPixmap

/-- `boFromBuffer`: bo backing `pPixmaps[currentPixmap]`. -/
def boFromBuffer (st : SwapState) (bufId : Nat) : Nat :=
  st.pixBo (bufPix (st.bufs bufId) (st.bufs bufId).currentPixmap)

/-- `armsoc_bo_reference`. -/
def armsoc_bo_reference (st : SwapState) (b : Nat) : SwapState :=
  { st with boRef := updFn st.boRef b (st.boRef b + 1) }

/-- `armsoc_bo_unreference`. -/
def armsoc_bo_unreference (st : SwapState) (b : Nat) : SwapState :=
  { st with boRef := updFn st.boRef b (st.boRef b - 1) }

/-- `armsoc_bo_add_fb`: counted as an attempt; on success installs the
fresh framebuffer id and returns 0, else leaves the bo alone and returns
an error. -/
def armsoc_bo_add_fb (env : Env) (st : SwapState) (b : Nat) : SwapState × Int :=
  let st1 := { st with addFbAttempts := st.addFbAttempts + 1 }
  if env.addFbOk then
    ({ st1 with bo := updFn st1.bo b { st1.bo b with fbId := env.newFbId } }, 0)
  else
    (st1, -1)

/-- `armsoc_bo_rm_fb`. -/
def armsoc_bo_rm_fb (st : SwapState) (b : Nat) : SwapState :=
  { st with bo := updFn st.bo b { st.bo b with fbId := 0 } }

/-- `pScreen->DestroyPixmap` (refcount drop; the deeper free cascade
lives in the external pixmap collaborator). -/
def DestroyPixmap (st : SwapState) (p : Nat) : SwapState :=
  { st with pixRef := updFn st.pixRef p (st.pixRef p - 1) }

/-- `createpix`: allocates a pixmap of the drawable's size (scanout or
backing flags do not change any modelled observable); the fresh pixmap
gets refcount 1 and a fresh bo with no framebuffer. -/
def createpix (env : Env) (st : SwapState) : Option (SwapState × Nat) :=
  match env.createPix with
  | none => none
  | some pb =>
      some ({ st with
                pixBo := updFn st.pixBo pb.1 pb.2,
                bo := updFn st.bo pb.2 ⟨env.freshBoName, 0, env.drawW, env.drawH⟩,
                pixRef := updFn st.pixRef pb.1 1 }, pb.1)

/-- `exchangebufs`: swap the backing bos of the two buffers' drawable
pixmaps (`ARMSOCPixmapExchange`) and swap the DRI2 export names. -/
def exchangebufs (st : SwapState) (aId bId : Nat) : SwapState :=
  let aPix := dri2drawPix st aId
  let bPix := dri2drawPix st bId
  let aBo := st.pixBo aPix
  let bBo := st.pixBo bPix
  let st1 := { st with pixBo := updFn (updFn st.pixBo aPix bBo) bPix aBo }
  let an := (st1.bufs aId).name
  let bn := (st1.bufs bId).name
  let st2 := updBuf st1 aId { st1.bufs aId with name := bn }
  updBuf st2 bId { st2.bufs bId with name := an }

/-- `allocNextBuffer`: create a pixmap for an empty ring slot, look up
its bo and name, and attach a framebuffer if it has none; on any failure
the partially created pixmap is destroyed and `none` is returned.
(The `!bo` branch of the C code is dead here since `pixBo` is total.) -/
def allocNextBuffer (env : Env) (st : SwapState) : SwapState × Option (Nat × Nat) :=
  match createpix env st with
  | none => (st, none)
  | some sp =>
      let st1 := sp.1
      let p := sp.2
      let boId := st1.pixBo p
      let new_name := (st1.bo boId).boName
      if (st1.bo boId).fbId = 0 then
        let ar := armsoc_bo_add_fb env st1 boId
        if ar.2 ≠ 0 then
          (DestroyPixmap ar.1 p, none)
        else
          (ar.1, some (p, new_name))
      else
        (st1, some (p, new_name))

/-- `nextBuffer`: ring advancement after a real flip.  No-op unless more
than double buffering is configured; otherwise advance the slot index
modulo the ring depth, reuse an already-allocated slot (publishing its
bo name), or allocate the slot, rolling back the index and shrinking the
ring depth on allocation failure. -/
def nextBuffer (env : Env) (st : SwapState) (bufId : Nat) : SwapState :=
  if env.driNumBufs ≤ 2 then
    st
  else
    let b := st.bufs bufId
    let cur := (b.currentPixmap + 1) % b.numPixmaps
    match b.pPixmaps.getD cur none with
    | some p =>
        updBuf st bufId { b with currentPixmap := cur,
                                 name := (st.bo (st.pixBo p)).boName }
    | none =>
        let ar := allocNextBuffer env st
        match ar.2 with
        | some pn =>
            updBuf ar.1 bufId { b with currentPixmap := cur,
                                       pPixmaps := b.pPixmaps.set cur (some pn.1),
                                       name := pn.2 }
        | none =>
            updBuf ar.1 bufId { b with currentPixmap := cur - 1,
                                       numPixmaps := cur - 1 + 1 }

/-- `ARMSOCDRI2CreateBuffer` (returns the new buffer record, or `none`
with partial state unwound on failure). -/
def ARMSOCDRI2CreateBuffer (env : Env) (st : SwapState) (attachment : Attachment) :
    SwapState × Option Buf :=
  if env.allocBufOk = false then
    (st, none)
  else
    let pixres : Option (SwapState × Nat) :=
      if attachment = Attachment.FrontLeft then
        some ({ st with pixRef := updFn st.pixRef st.drawPix (st.pixRef st.drawPix + 1) },
              st.drawPix)
      else
        createpix env st
    match pixres with
    | none => (st, none)
    | some sp =>
        let st1 := sp.1
        let pix := sp.2
        if env.allocRingOk = false then
          (if attachment = Attachment.FrontLeft then
             { st1 with pixRef := updFn st1.pixRef st.drawPix (st1.pixRef st.drawPix - 1) }
           else
             DestroyPixmap st1 pix, none)
        else
          let multi : Bool := attachment = Attachment.BackLeft ∧ 2 < env.driNumBufs
          let slots : List (Option Nat) :=
            (if multi then List.replicate (env.driNumBufs - 1) none else [none]).set 0 (some pix)
          let num : Nat := if multi then env.driNumBufs - 1 else 1
          let boId := st1.pixBo pix
          let buf : Buf := { attachment := attachment,
                             name := (st1.bo boId).boName,
                             pPixmaps := slots,
                             currentPixmap := 0,
                             numPixmaps := num,
                             refcnt := 1,
                             attempted_fb_alloc := false }
          if canflip env = true ∧ attachment ≠ Attachment.FrontLeft then
            let ar := armsoc_bo_add_fb env st1 boId
            (ar.1, some { buf with attempted_fb_alloc := true })
          else
            (st1, some buf)

/-- `ARMSOCDRI2ReuseBufferNotify`: the lazy attach/detach policy. -/
def ARMSOCDRI2ReuseBufferNotify (env : Env) (st : SwapState) (bufId : Nat) : SwapState :=
  if (st.bufs bufId).attachment = Attachment.FrontLeft then
    st
  else
    let boId := st.pixBo (bufPix (st.bufs bufId) 0)
    let fb_id := (st.bo boId).fbId
    let flippable := canflip env
    let st1 :=
      if flippable = true ∧ (st.bufs bufId).attempted_fb_alloc = false ∧ fb_id = 0 then
        let ar := armsoc_bo_add_fb env st boId
        updBuf ar.1 bufId { ar.1.bufs bufId with attempted_fb_alloc := true }
      else
        st
    if flippable = false ∧ fb_id ≠ 0 then
      armsoc_bo_rm_fb
        (updBuf st1 bufId { st1.bufs bufId with attempted_fb_alloc := false }) boId
    else
      st1

/-- `ARMSOCDRI2DestroyBuffer`: decrement the refcount; on reaching zero
destroy the owned pixmaps (the leading non-NULL slots, up to the ring
size) and free the record (the dead refcount stays recorded). -/
def ARMSOCDRI2DestroyBuffer (env : Env) (st : SwapState) (bufId : Nat) : SwapState :=
  let b := st.bufs bufId
  let r := b.refcnt - 1
  if 0 < r then
    updBuf st bufId { b with refcnt := r }
  else
    let numBuffers := if b.attachment = Attachment.BackLeft then env.driNumBufs - 1 else 1
    let owned := (b.pPixmaps.take numBuffers).takeWhile (fun o => o.isSome)
    let st1 := owned.foldl (fun s o => DestroyPixmap s (o.getD 0)) st
    updBuf st1 bufId { b with refcnt := r }

/-- `ARMSOCDRI2ReferenceBuffer`. -/
def ARMSOCDRI2ReferenceBuffer (st : SwapState) (bufId : Nat) : SwapState :=
  updBuf st bufId { st.bufs bufId with refcnt := (st.bufs bufId).refcnt + 1 }

/-- `ARMSOCDRI2CopyRegion`: the scratch GC and region bookkeeping are
external; the executed `CopyArea` is the modelled observable. -/
def ARMSOCDRI2CopyRegion (st : SwapState) : SwapState :=
  { st with copies := st.copies + 1 }

/-- Client-visible part of the completion handler (the big
`if ((cmd->flags & ARMSOC_SWAP_FAIL) == 0)` block): unless the flip
failed or the drawable id no longer resolves, exchange buffer identities
for a real (non-fake) flip, advance the ring for a BackLeft source,
notify the client, and publish the new scanout bo for a real flip. -/
def swapCompleteVisible (env : Env) (st : SwapState) (cmd : SwapCmd) : SwapState :=
  if cmd.flagFail = true then
    st
  else if st.drawExists = false then
    st
  else
    let stA :=
      if cmd.ctype ≠ DRI2_BLIT_COMPLETE ∧ cmd.flagFake = false then
        let stE := exchangebufs st cmd.srcId cmd.dstId
        if (stE.bufs cmd.srcId).attachment = Attachment.BackLeft then
          nextBuffer env stE cmd.srcId
        else
          stE
      else
        st
    let stB := { stA with
                   notifyLog := stA.notifyLog ++ [⟨cmd.client, cmd.ctype, cmd.func, cmd.cbData⟩] }
    if cmd.ctype ≠ DRI2_BLIT_COMPLETE ∧ cmd.flagFake = false then
      { stB with scanout := some (boFromBuffer stB cmd.dstId) }
    else
      stB

/-- Tail of `ARMSOCDRI2SwapComplete` once the event count has drained:
capture the pre-exchange bos, run the client-visible part, then drop the
extra buffer references, unreference the captured bos, and decrement
`pending_flips`.  The freed command is recorded in `completedCmds`. -/
def swapCompleteFinish (env : Env) (st : SwapState) (cmd : SwapCmd) : SwapState :=
  let old_src_bo := boFromBuffer st cmd.srcId
  let old_dst_bo := boFromBuffer st cmd.dstId
  let st1 := swapCompleteVisible env st cmd
  let st2 := ARMSOCDRI2DestroyBuffer env st1 cmd.srcId
  let st3 := ARMSOCDRI2DestroyBuffer env st2 cmd.dstId
  let st4 := armsoc_bo_unreference st3 old_src_bo
  let st5 := armsoc_bo_unreference st4 old_dst_bo
  { st5 with pending_flips := st5.pending_flips - 1,
             completedCmds := st5.completedCmds ++ [cmd] }

/-- `ARMSOCDRI2SwapComplete`: decrement the outstanding-event count and
return early while events remain; otherwise run the completion body.
Returns the still-pending command, if any. -/
def ARMSOCDRI2SwapComplete (env : Env) (st : SwapState) (cmd : SwapCmd) :
    SwapState × Option SwapCmd :=
  let sc := cmd.swapCount - 1
  if 0 < sc then
    (st, some { cmd with swapCount := sc })
  else
    (swapCompleteFinish env st { cmd with swapCount := sc }, none)

/-- The `do_flip` decision of `ARMSOCDRI2ScheduleSwap`. -/
def do_flip (env : Env) (st : SwapState) (srcId dstId : Nat) : Bool :=
  let src_bo := boFromBuffer st srcId
  let dst_bo := boFromBuffer st dstId
  decide ((st.bo src_bo).fbId ≠ 0) && decide ((st.bo dst_bo).fbId ≠ 0) && canflip env
    && decide ((st.bo src_bo).width = (st.bo dst_bo).width)
    && decide ((st.bo src_bo).height = (st.bo dst_bo).height)

/-- Prologue of `ARMSOCDRI2ScheduleSwap`: take the extra reference on
both buffers, count the in-flight flip, and reference both backing bos. -/
def scheduleBump (st : SwapState) (srcId dstId : Nat) : SwapState :=
  let st1 := ARMSOCDRI2ReferenceBuffer st srcId
  let st2 := ARMSOCDRI2ReferenceBuffer st1 dstId
  let st3 := { st2 with pending_flips := st2.pending_flips + 1 }
  let src_bo := boFromBuffer st3 srcId
  let dst_bo := boFromBuffer st3 dstId
  let st4 := armsoc_bo_reference st3 src_bo
  armsoc_bo_reference st4 dst_bo

/-- `ARMSOCDRI2ScheduleSwap`.  Returns the C result (`TRUE`/`FALSE`),
the new state, and the in-flight command when completion is deferred to
later page-flip events. -/
def ARMSOCDRI2ScheduleSwap (env : Env) (st : SwapState)
    (client dstId srcId func cbData : Nat) :
    Bool × SwapState × Option SwapCmd :=
  if env.allocCmdOk = false then
    (false, st, none)
  else
    let cmd0 : SwapCmd := { ctype := 0, client := client, srcId := srcId, dstId := dstId,
                            swapCount := 0, flagFake := false, flagFail := false,
                            func := func, cbData := cbData }
    let st5 := scheduleBump st srcId dstId
    if do_flip env st5 srcId dstId = true then
      let cmd1 := { cmd0 with ctype := DRI2_FLIP_COMPLETE }
      let st6 := { st5 with flipReqs := st5.flipReqs + 1 }
      let ret := env.pageFlipRet
      if ret < 0 then
        let cmd2 := { cmd1 with flagFail := true,
                                swapCount := if env.useFlipEvents then -(ret + 1) else 0 }
        if cmd2.swapCount = 0 then
          let fin := ARMSOCDRI2SwapComplete env st6 cmd2
          (false, fin.1, fin.2)
        else
          (false, st6, some cmd2)
      else
        let cmd2 := { cmd1 with flagFake := if ret = 0 then true else cmd1.flagFake,
                                swapCount := if env.useFlipEvents then ret else 0 }
        if cmd2.swapCount = 0 then
          let fin := ARMSOCDRI2SwapComplete env st6 cmd2
          (true, fin.1, fin.2)
        else
          (true, st6, some cmd2)
    else
      let st6 := ARMSOCDRI2CopyRegion st5
      let cmd1 := { cmd0 with ctype := DRI2_BLIT_COMPLETE }
      let fin := ARMSOCDRI2SwapComplete env st6 cmd1
      (true, fin.1, fin.2)

/-- Deliver up to `fuel` page-flip events to a pending command. -/
def drainSwap (env : Env) : Nat → SwapState × Option SwapCmd → SwapState × Option SwapCmd
  | 0, p => p
  | _ + 1, (st, none) => (st, none)
  | f + 1, (st, some cmd) => drainSwap env f (ARMSOCDRI2SwapComplete env st cmd)

/-- Schedule a swap and, when completion was deferred, deliver all the
expected page-flip events. -/
def scheduleAndDrain (env : Env) (st : SwapState)
    (client dstId srcId func cbData : Nat) : Bool × SwapState :=
  match ARMSOCDRI2ScheduleSwap env st client dstId srcId func cbData with
  | (r, st1, none) => (r, st1)
  | (r, st1, some cmd) => (r, (drainSwap env cmd.swapCount.toNat (st1, some cmd)).1)

/-! ### Frame lemmas: which parts of the state each operation leaves alone -/

theorem exchangebufs_frame (st : SwapState) (a b : Nat) :
    (exchangebufs st a b).notifyLog = st.notifyLog ∧
    (exchangebufs st a b).scanout = st.scanout ∧
    (exchangebufs st a b).boRef = st.boRef ∧
    (exchangebufs st a b).pending_flips = st.pending_flips ∧
    (exchangebufs st a b).completedCmds = st.completedCmds ∧
    (exchangebufs st a b).copies = st.copies ∧
    (exchangebufs st a b).flipReqs = st.flipReqs ∧
    (exchangebufs st a b).drawExists = st.drawExists ∧
    (exchangebufs st a b).bo = st.bo := by
  simp [exchangebufs, updBuf]

theorem exchangebufs_bufs (st : SwapState) (a b i : Nat) :
    ((exchangebufs st a b).bufs i).refcnt = (st.bufs i).refcnt ∧
    ((exchangebufs st a b).bufs i).attachment = (st.bufs i).attachment ∧
    ((exchangebufs st a b).bufs i).currentPixmap = (st.bufs i).currentPixmap ∧
    ((exchangebufs st a b).bufs i).numPixmaps = (st.bufs i).numPixmaps ∧
    ((exchangebufs st a b).bufs i).pPixmaps = (st.bufs i).pPixmaps := by
  simp only [exchangebufs, updBuf, updFn]
  split_ifs <;> simp_all

theorem allocNextBuffer_frame (env : Env) (st : SwapState) :
    (allocNextBuffer env st).1.bufs = st.bufs ∧
    (allocNextBuffer env st).1.notifyLog = st.notifyLog ∧
    (allocNextBuffer env st).1.scanout = st.scanout ∧
    (allocNextBuffer env st).1.boRef = st.boRef ∧
    (allocNextBuffer env st).1.pending_flips = st.pending_flips ∧
    (allocNextBuffer env st).1.completedCmds = st.completedCmds ∧
    (allocNextBuffer env st).1.copies = st.copies ∧
    (allocNextBuffer env st).1.flipReqs = st.flipReqs ∧
    (allocNextBuffer env st).1.drawExists = st.drawExists := by
  unfold allocNextBuffer createpix
  cases h : env.createPix <;>
    simp [h, armsoc_bo_add_fb, DestroyPixmap] <;> split_ifs <;> simp

theorem nextBuffer_frame (env : Env) (st : SwapState) (bId : Nat) :
    (nextBuffer env st bId).notifyLog = st.notifyLog ∧
    (nextBuffer env st bId).scanout = st.scanout ∧
    (nextBuffer env st bId).boRef = st.boRef ∧
    (nextBuffer env st bId).pending_flips = st.pending_flips ∧
    (nextBuffer env st bId).completedCmds = st.completedCmds ∧
    (nextBuffer env st bId).copies = st.copies ∧
    (nextBuffer env st bId).flipReqs = st.flipReqs ∧
    (nextBuffer env st bId).drawExists = st.drawExists := by
  have h := allocNextBuffer_frame env st
  simp only [nextBuffer]
  split
  · simp
  · split
    · simp [updBuf]
    · split
      · simp [updBuf, h.2.1, h.2.2.1, h.2.2.2.1, h.2.2.2.2.1, h.2.2.2.2.2.1,
              h.2.2.2.2.2.2.1, h.2.2.2.2.2.2.2.1, h.2.2.2.2.2.2.2.2]
      · simp [updBuf, h.2.1, h.2.2.1, h.2.2.2.1, h.2.2.2.2.1, h.2.2.2.2.2.1,
              h.2.2.2.2.2.2.1, h.2.2.2.2.2.2.2.1, h.2.2.2.2.2.2.2.2]

theorem nextBuffer_bufs_refcnt (env : Env) (st : SwapState) (bId i : Nat) :
    ((nextBuffer env st bId).bufs i).refcnt = (st.bufs i).refcnt := by
  have hb := (allocNextBuffer_frame env st).1
  simp only [nextBuffer]
  split
  · rfl
  · split
    · simp only [updBuf, updFn]
      by_cases h : i = bId <;> simp [h]
    · split
      · simp only [updBuf, updFn, hb]
        by_cases h : i = bId <;> simp [h, hb]
      · simp only [updBuf, updFn, hb]
        by_cases h : i = bId <;> simp [h, hb]

/-- A `DestroyPixmap` fold only rewrites pixmap reference counts. -/
theorem destroyFold_eq (l : List (Option Nat)) (s : SwapState) :
    ∃ f, l.foldl (fun s o => DestroyPixmap s (o.getD 0)) s = { s with pixRef := f } := by
  induction l generalizing s with
  | nil => exact ⟨s.pixRef, rfl⟩
  | cons x xs ih =>
      obtain ⟨f, hf⟩ := ih (DestroyPixmap s (x.getD 0))
      exact ⟨f, by simpa [DestroyPixmap] using hf⟩

/-- `ARMSOCDRI2DestroyBuffer` decrements the target buffer's reference
count and possibly drops pixmap reference counts; nothing else moves. -/
theorem destroyBuffer_eq (env : Env) (st : SwapState) (bId : Nat) :
    ∃ f, ARMSOCDRI2DestroyBuffer env st bId =
      { st with pixRef := f,
                bufs := updFn st.bufs bId
                  { st.bufs bId with refcnt := (st.bufs bId).refcnt - 1 } } := by
  by_cases hc : 0 < (st.bufs bId).refcnt - 1
  · refine ⟨st.pixRef, ?_⟩
    simp only [ARMSOCDRI2DestroyBuffer]
    rw [if_pos hc]
    rfl
  · obtain ⟨f, hf⟩ := destroyFold_eq
      (((st.bufs bId).pPixmaps.take
          (if (st.bufs bId).attachment = Attachment.BackLeft then
            env.driNumBufs - 1 else 1)).takeWhile (fun o => o.isSome)) st
    refine ⟨f, ?_⟩
    simp only [ARMSOCDRI2DestroyBuffer]
    rw [if_neg hc, hf]
    rfl

/-- `do_flip` reads only bo data and the pixmap/slot structure, so the
reference bumps at the top of `ScheduleSwap` do not change it. -/
theorem do_flip_bump (env : Env) (st : SwapState) (srcId dstId a b x y : Nat) (p : Int) :
    do_flip env
      (armsoc_bo_reference (armsoc_bo_reference
        { ARMSOCDRI2ReferenceBuffer (ARMSOCDRI2ReferenceBuffer st a) b with
            pending_flips := p } x) y) srcId dstId
      = do_flip env st srcId dstId := by
  simp only [do_flip, boFromBuffer, bufPix, armsoc_bo_reference,
             ARMSOCDRI2ReferenceBuffer, updBuf, updFn]
  split_ifs <;> simp_all

/-- `boFromBuffer` likewise ignores the reference bumps. -/
theorem boFromBuffer_bump (st : SwapState) (bufId a b : Nat) (p : Int) :
    boFromBuffer
      { ARMSOCDRI2ReferenceBuffer (ARMSOCDRI2ReferenceBuffer st a) b with
          pending_flips := p } bufId = boFromBuffer st bufId := by
  simp only [boFromBuffer, bufPix, ARMSOCDRI2ReferenceBuffer, updBuf, updFn]
  split_ifs <;> simp_all

/-! ### Completion-path lemmas -/

/-- The client-visible completion block never touches reference counts,
the in-flight counter, or the observation counters. -/
theorem swapCompleteVisible_frame (env : Env) (st : SwapState) (cmd : SwapCmd) :
    (swapCompleteVisible env st cmd).boRef = st.boRef ∧
    (swapCompleteVisible env st cmd).pending_flips = st.pending_flips ∧
    (swapCompleteVisible env st cmd).completedCmds = st.completedCmds ∧
    (swapCompleteVisible env st cmd).copies = st.copies ∧
    (swapCompleteVisible env st cmd).flipReqs = st.flipReqs ∧
    (swapCompleteVisible env st cmd).drawExists = st.drawExists ∧
    (∀ i, ((swapCompleteVisible env st cmd).bufs i).refcnt = (st.bufs i).refcnt) := by
  obtain ⟨hE1, hE2, hE3, hE4, hE5, hE6, hE7, hE8, hE9⟩ :=
    exchangebufs_frame st cmd.srcId cmd.dstId
  obtain ⟨hN1, hN2, hN3, hN4, hN5, hN6, hN7, hN8⟩ :=
    nextBuffer_frame env (exchangebufs st cmd.srcId cmd.dstId) cmd.srcId
  have hEb := fun i => (exchangebufs_bufs st cmd.srcId cmd.dstId i).1
  have hNb := fun i =>
    nextBuffer_bufs_refcnt env (exchangebufs st cmd.srcId cmd.dstId) cmd.srcId i
  unfold swapCompleteVisible
  split_ifs <;> try simp_all
  all_goals split_ifs <;> simp_all

/-- The notifier fires from the completion block exactly when the
command is not a failed flip and the drawable still resolves. -/
theorem swapCompleteVisible_notifyLog (env : Env) (st : SwapState) (cmd : SwapCmd) :
    (swapCompleteVisible env st cmd).notifyLog =
      st.notifyLog ++ (if cmd.flagFail = true ∨ st.drawExists = false then []
        else [⟨cmd.client, cmd.ctype, cmd.func, cmd.cbData⟩]) := by
  have hE1 := (exchangebufs_frame st cmd.srcId cmd.dstId).1
  have hN1 := (nextBuffer_frame env (exchangebufs st cmd.srcId cmd.dstId) cmd.srcId).1
  unfold swapCompleteVisible
  split_ifs <;> try simp_all
  all_goals split_ifs <;> simp_all

/-- When the command is a failed flip, the drawable is gone, the kind is
blit, or the flip was fake, the completion block performs no buffer
exchange, no ring advance, and no scanout publish. -/
theorem swapCompleteVisible_skip (env : Env) (st : SwapState) (cmd : SwapCmd)
    (h : cmd.flagFail = true ∨ st.drawExists = false ∨
         cmd.ctype = DRI2_BLIT_COMPLETE ∨ cmd.flagFake = true) :
    (swapCompleteVisible env st cmd).scanout = st.scanout ∧
    (swapCompleteVisible env st cmd).pixBo = st.pixBo ∧
    (swapCompleteVisible env st cmd).bo = st.bo ∧
    (∀ i, ((swapCompleteVisible env st cmd).bufs i).name = (st.bufs i).name) ∧
    (∀ i, ((swapCompleteVisible env st cmd).bufs i).currentPixmap
        = (st.bufs i).currentPixmap) ∧
    (∀ i, ((swapCompleteVisible env st cmd).bufs i).pPixmaps = (st.bufs i).pPixmaps) ∧
    (∀ i, ((swapCompleteVisible env st cmd).bufs i).numPixmaps = (st.bufs i).numPixmaps) := by
  unfold swapCompleteVisible
  rcases h with h | h | h | h <;> split_ifs <;> try simp_all
  all_goals split_ifs <;> simp_all

/-- The release tail of the completion handler: `pending_flips` drops by
one, the command is recorded, each of the two buffers loses exactly the
one extra reference, and each captured bo loses exactly one reference;
the observation counters are untouched. -/
theorem swapCompleteFinish_release (env : Env) (st : SwapState) (cmd : SwapCmd) :
    (swapCompleteFinish env st cmd).pending_flips = st.pending_flips - 1 ∧
    (swapCompleteFinish env st cmd).completedCmds = st.completedCmds ++ [cmd] ∧
    (swapCompleteFinish env st cmd).copies = st.copies ∧
    (swapCompleteFinish env st cmd).flipReqs = st.flipReqs ∧
    (swapCompleteFinish env st cmd).drawExists = st.drawExists ∧
    (∀ i, ((swapCompleteFinish env st cmd).bufs i).refcnt
        = (st.bufs i).refcnt - (if i = cmd.srcId then 1 else 0)
                             - (if i = cmd.dstId then 1 else 0)) ∧
    (∀ b, (swapCompleteFinish env st cmd).boRef b
        = st.boRef b - (if b = boFromBuffer st cmd.srcId then 1 else 0)
                     - (if b = boFromBuffer st cmd.dstId then 1 else 0)) := by
  obtain ⟨hV1, hV2, hV3, hV4, hV5, hV6, hV7⟩ := swapCompleteVisible_frame env st cmd
  obtain ⟨f3, h3⟩ := destroyBuffer_eq env
    (ARMSOCDRI2DestroyBuffer env (swapCompleteVisible env st cmd) cmd.srcId) cmd.dstId
  obtain ⟨f2, h2⟩ := destroyBuffer_eq env (swapCompleteVisible env st cmd) cmd.srcId
  simp only [swapCompleteFinish]
  rw [h3, h2]
  simp only [armsoc_bo_unreference, updBuf, updFn]
  refine ⟨by simp [hV2], by simp [hV3], by simp [hV4], by simp [hV5], by simp [hV6],
          ?_, ?_⟩
  · intro i
    by_cases hd : i = cmd.dstId <;> by_cases hs : i = cmd.srcId <;>
      by_cases hds : cmd.dstId = cmd.srcId <;> simp_all <;> omega
  · intro b
    by_cases hd : b = boFromBuffer st cmd.dstId <;>
      by_cases hs : b = boFromBuffer st cmd.srcId <;>
      by_cases hds : boFromBuffer st cmd.dstId = boFromBuffer st cmd.srcId <;>
      simp_all [hV1] <;> omega

/-- One delivered event on a command still expecting more events only
decrements the outstanding count. -/
theorem swapComplete_pending (env : Env) (st : SwapState) (cmd : SwapCmd)
    (h : 0 < cmd.swapCount - 1) :
    ARMSOCDRI2SwapComplete env st cmd
      = (st, some { cmd with swapCount := cmd.swapCount - 1 }) := by
  unfold ARMSOCDRI2SwapComplete
  rw [if_pos h]

/-- The last delivered event runs the completion body. -/
theorem swapComplete_fin (env : Env) (st : SwapState) (cmd : SwapCmd)
    (h : ¬ 0 < cmd.swapCount - 1) :
    ARMSOCDRI2SwapComplete env st cmd
      = (swapCompleteFinish env st { cmd with swapCount := cmd.swapCount - 1 }, none) := by
  unfold ARMSOCDRI2SwapComplete
  rw [if_neg h]

theorem drainSwap_none (env : Env) (f : Nat) (st : SwapState) :
    drainSwap env f (st, none) = (st, none) := by
  cases f <;> rfl

/-- Draining a pending command with enough fuel runs the completion body
exactly once (for some final recorded event count). -/
theorem drainSwap_run (env : Env) : ∀ (f : Nat) (st : SwapState) (cmd : SwapCmd),
    cmd.swapCount.toNat ≤ f + 1 →
    ∃ k, drainSwap env (f + 1) (st, some cmd)
      = (swapCompleteFinish env st { cmd with swapCount := k }, none) := by
  intro f
  induction f with
  | zero =>
      intro st cmd h
      have hc : ¬ 0 < cmd.swapCount - 1 := by omega
      refine ⟨cmd.swapCount - 1, ?_⟩
      show drainSwap env 0 (ARMSOCDRI2SwapComplete env st cmd) = _
      rw [swapComplete_fin env st cmd hc]
      rfl
  | succ n ih =>
      intro st cmd h
      have hstep : drainSwap env (n + 1 + 1) (st, some cmd)
          = drainSwap env (n + 1) (ARMSOCDRI2SwapComplete env st cmd) := rfl
      by_cases hc : 0 < cmd.swapCount - 1
      · rw [hstep, swapComplete_pending env st cmd hc]
        have h' : ({ cmd with swapCount := cmd.swapCount - 1 } : SwapCmd).swapCount.toNat
            ≤ n + 1 := by
          simp only [Int.toNat_le] at h ⊢
          omega
        obtain ⟨k, hk⟩ := ih st { cmd with swapCount := cmd.swapCount - 1 } h'
        exact ⟨k, by rw [hk]⟩
      · refine ⟨cmd.swapCount - 1, ?_⟩
        rw [hstep, swapComplete_fin env st cmd hc, drainSwap_none]

/-! ### Schedule prologue lemmas -/

theorem do_flip_scheduleBump (env : Env) (st : SwapState) (srcId dstId : Nat) :
    do_flip env (scheduleBump st srcId dstId) srcId dstId = do_flip env st srcId dstId := by
  simp only [scheduleBump]
  exact do_flip_bump env st srcId dstId srcId dstId _ _ _

theorem scheduleBump_frame (st : SwapState) (srcId dstId : Nat) :
    (scheduleBump st srcId dstId).copies = st.copies ∧
    (scheduleBump st srcId dstId).flipReqs = st.flipReqs ∧
    (scheduleBump st srcId dstId).notifyLog = st.notifyLog ∧
    (scheduleBump st srcId dstId).scanout = st.scanout ∧
    (scheduleBump st srcId dstId).completedCmds = st.completedCmds ∧
    (scheduleBump st srcId dstId).drawExists = st.drawExists ∧
    (scheduleBump st srcId dstId).pixBo = st.pixBo ∧
    (scheduleBump st srcId dstId).bo = st.bo ∧
    (scheduleBump st srcId dstId).pending_flips = st.pending_flips + 1 := by
  simp [scheduleBump, armsoc_bo_reference, ARMSOCDRI2ReferenceBuffer, updBuf]

theorem scheduleBump_bufs (st : SwapState) (srcId dstId i : Nat) :
    ((scheduleBump st srcId dstId).bufs i).refcnt
      = (st.bufs i).refcnt + (if i = srcId then 1 else 0) + (if i = dstId then 1 else 0) ∧
    ((scheduleBump st srcId dstId).bufs i).name = (st.bufs i).name ∧
    ((scheduleBump st srcId dstId).bufs i).attachment = (st.bufs i).attachment ∧
    ((scheduleBump st srcId dstId).bufs i).currentPixmap = (st.bufs i).currentPixmap ∧
    ((scheduleBump st srcId dstId).bufs i).pPixmaps = (st.bufs i).pPixmaps ∧
    ((scheduleBump st srcId dstId).bufs i).numPixmaps = (st.bufs i).numPixmaps := by
  simp only [scheduleBump, armsoc_bo_reference, ARMSOCDRI2ReferenceBuffer, updBuf, updFn]
  by_cases h1 : i = dstId <;> by_cases h2 : i = srcId <;>
    by_cases h3 : dstId = srcId <;> simp_all <;> omega

theorem boFromBuffer_scheduleBump (st : SwapState) (srcId dstId i : Nat) :
    boFromBuffer (scheduleBump st srcId dstId) i = boFromBuffer st i := by
  have h := scheduleBump_bufs st srcId dstId i
  simp only [boFromBuffer, bufPix, h.2.2.2.1, h.2.2.2.2.1, (scheduleBump_frame st srcId dstId).2.2.2.2.2.2.1]

theorem scheduleBump_boRef (st : SwapState) (srcId dstId : Nat) (b : Nat) :
    (scheduleBump st srcId dstId).boRef b
      = st.boRef b + (if b = boFromBuffer st srcId then 1 else 0)
                   + (if b = boFromBuffer st dstId then 1 else 0) := by
  simp only [scheduleBump]
  rw [boFromBuffer_bump, boFromBuffer_bump]
  simp only [armsoc_bo_reference, ARMSOCDRI2ReferenceBuffer, updBuf, updFn]
  by_cases h1 : b = boFromBuffer st dstId <;> by_cases h2 : b = boFromBuffer st srcId <;>
    by_cases h3 : boFromBuffer st dstId = boFromBuffer st srcId <;> simp_all <;> omega

/-! ### Finish-level corollaries -/

theorem swapCompleteFinish_notifyLog (env : Env) (st : SwapState) (cmd : SwapCmd) :
    (swapCompleteFinish env st cmd).notifyLog
      = st.notifyLog ++ (if cmd.flagFail = true ∨ st.drawExists = false then []
          else [⟨cmd.client, cmd.ctype, cmd.func, cmd.cbData⟩]) := by
  have hV := swapCompleteVisible_notifyLog env st cmd
  obtain ⟨f3, h3⟩ := destroyBuffer_eq env
    (ARMSOCDRI2DestroyBuffer env (swapCompleteVisible env st cmd) cmd.srcId) cmd.dstId
  obtain ⟨f2, h2⟩ := destroyBuffer_eq env (swapCompleteVisible env st cmd) cmd.srcId
  simp only [swapCompleteFinish]
  rw [h3, h2]
  simp [armsoc_bo_unreference, hV]

theorem swapCompleteFinish_skip (env : Env) (st : SwapState) (cmd : SwapCmd)
    (h : cmd.flagFail = true ∨ st.drawExists = false ∨
         cmd.ctype = DRI2_BLIT_COMPLETE ∨ cmd.flagFake = true) :
    (swapCompleteFinish env st cmd).scanout = st.scanout ∧
    (swapCompleteFinish env st cmd).pixBo = st.pixBo ∧
    (swapCompleteFinish env st cmd).bo = st.bo ∧
    (∀ i, ((swapCompleteFinish env st cmd).bufs i).name = (st.bufs i).name) ∧
    (∀ i, ((swapCompleteFinish env st cmd).bufs i).currentPixmap
        = (st.bufs i).currentPixmap) ∧
    (∀ i, ((swapCompleteFinish env st cmd).bufs i).pPixmaps = (st.bufs i).pPixmaps) ∧
    (∀ i, ((swapCompleteFinish env st cmd).bufs i).numPixmaps = (st.bufs i).numPixmaps) := by
  obtain ⟨hS1, hS2, hS3, hS4, hS5, hS6, hS7⟩ := swapCompleteVisible_skip env st cmd h
  obtain ⟨f3, h3⟩ := destroyBuffer_eq env
    (ARMSOCDRI2DestroyBuffer env (swapCompleteVisible env st cmd) cmd.srcId) cmd.dstId
  obtain ⟨f2, h2⟩ := destroyBuffer_eq env (swapCompleteVisible env st cmd) cmd.srcId
  simp only [swapCompleteFinish]
  rw [h3, h2]
  simp only [armsoc_bo_unreference, updBuf, updFn]
  refine ⟨by simp [hS1], by simp [hS2], by simp [hS3], ?_, ?_, ?_, ?_⟩ <;>
    · intro i
      by_cases hd : i = cmd.dstId <;> by_cases hs : i = cmd.srcId <;>
        by_cases hds : cmd.dstId = cmd.srcId <;> simp_all

/-! ### Schedule path characterizations -/

theorem schedule_blit (env : Env) (st : SwapState) (client dstId srcId func cbData : Nat)
    (hok : env.allocCmdOk = true) (hflip : do_flip env st srcId dstId = false) :
    ARMSOCDRI2ScheduleSwap env st client dstId srcId func cbData
      = (true, swapCompleteFinish env (ARMSOCDRI2CopyRegion (scheduleBump st srcId dstId))
          { ctype := DRI2_BLIT_COMPLETE, client := client, srcId := srcId, dstId := dstId,
            swapCount := -1, flagFake := false, flagFail := false,
            func := func, cbData := cbData },
          none) := by
  simp only [ARMSOCDRI2ScheduleSwap, hok, reduceIte, do_flip_scheduleBump, hflip,
             Bool.false_eq_true, if_false]
  rw [swapComplete_fin env (ARMSOCDRI2CopyRegion (scheduleBump st srcId dstId))
      { ctype := DRI2_BLIT_COMPLETE, client := client, srcId := srcId, dstId := dstId,
        swapCount := 0, flagFake := false, flagFail := false, func := func,
        cbData := cbData } (by norm_num)]
  rfl

theorem schedule_flip_fail_now (env : Env) (st : SwapState)
    (client dstId srcId func cbData : Nat)
    (hok : env.allocCmdOk = true) (hflip : do_flip env st srcId dstId = true)
    (hret : env.pageFlipRet < 0)
    (hsc : (if env.useFlipEvents then -(env.pageFlipRet + 1) else 0) = 0) :
    ARMSOCDRI2ScheduleSwap env st client dstId srcId func cbData
      = (false, swapCompleteFinish env
          { scheduleBump st srcId dstId with
              flipReqs := (scheduleBump st srcId dstId).flipReqs + 1 }
          { ctype := DRI2_FLIP_COMPLETE, client := client, srcId := srcId, dstId := dstId,
            swapCount := -1, flagFake := false, flagFail := true,
            func := func, cbData := cbData },
          none) := by
  simp only [ARMSOCDRI2ScheduleSwap, hok, reduceIte, do_flip_scheduleBump, hflip,
             if_pos hret, hsc]
  rw [swapComplete_fin env
      { scheduleBump st srcId dstId with
          flipReqs := (scheduleBump st srcId dstId).flipReqs + 1 }
      { ctype := DRI2_FLIP_COMPLETE, client := client, srcId := srcId, dstId := dstId,
        swapCount := 0, flagFake := false, flagFail := true, func := func,
        cbData := cbData } (by norm_num)]
  rfl

theorem schedule_flip_fail_later (env : Env) (st : SwapState)
    (client dstId srcId func cbData : Nat)
    (hok : env.allocCmdOk = true) (hflip : do_flip env st srcId dstId = true)
    (hret : env.pageFlipRet < 0)
    (hsc : (if env.useFlipEvents then -(env.pageFlipRet + 1) else 0) ≠ 0) :
    ARMSOCDRI2ScheduleSwap env st client dstId srcId func cbData
      = (false,
         { scheduleBump st srcId dstId with
             flipReqs := (scheduleBump st srcId dstId).flipReqs + 1 },
         some { ctype := DRI2_FLIP_COMPLETE, client := client, srcId := srcId, dstId := dstId,
                swapCount := if env.useFlipEvents then -(env.pageFlipRet + 1) else 0,
                flagFake := false, flagFail := true, func := func, cbData := cbData }) := by
  simp only [ARMSOCDRI2ScheduleSwap, hok, reduceIte, do_flip_scheduleBump, hflip,
             Bool.true_eq_false, if_false, if_pos hret, if_neg hsc]

theorem schedule_flip_ok_now (env : Env) (st : SwapState)
    (client dstId srcId func cbData : Nat)
    (hok : env.allocCmdOk = true) (hflip : do_flip env st srcId dstId = true)
    (hret : ¬ env.pageFlipRet < 0)
    (hsc : (if env.useFlipEvents then env.pageFlipRet else 0) = 0) :
    ARMSOCDRI2ScheduleSwap env st client dstId srcId func cbData
      = (true, swapCompleteFinish env
          { scheduleBump st srcId dstId with
              flipReqs := (scheduleBump st srcId dstId).flipReqs + 1 }
          { ctype := DRI2_FLIP_COMPLETE, client := client, srcId := srcId, dstId := dstId,
            swapCount := -1,
            flagFake := if env.pageFlipRet = 0 then true else false, flagFail := false,
            func := func, cbData := cbData },
          none) := by
  simp only [ARMSOCDRI2ScheduleSwap, hok, reduceIte, do_flip_scheduleBump, hflip,
             if_neg hret, hsc]
  rw [swapComplete_fin env
      { scheduleBump st srcId dstId with
          flipReqs := (scheduleBump st srcId dstId).flipReqs + 1 }
      { ctype := DRI2_FLIP_COMPLETE, client := client, srcId := srcId, dstId := dstId,
        swapCount := 0, flagFake := if env.pageFlipRet = 0 then true else false,
        flagFail := false, func := func, cbData := cbData } (by norm_num)]
  rfl

theorem schedule_flip_ok_later (env : Env) (st : SwapState)
    (client dstId srcId func cbData : Nat)
    (hok : env.allocCmdOk = true) (hflip : do_flip env st srcId dstId = true)
    (hret : ¬ env.pageFlipRet < 0)
    (hsc : (if env.useFlipEvents then env.pageFlipRet else 0) ≠ 0) :
    ARMSOCDRI2ScheduleSwap env st client dstId srcId func cbData
      = (true,
         { scheduleBump st srcId dstId with
             flipReqs := (scheduleBump st srcId dstId).flipReqs + 1 },
         some { ctype := DRI2_FLIP_COMPLETE, client := client, srcId := srcId, dstId := dstId,
                swapCount := if env.useFlipEvents then env.pageFlipRet else 0,
                flagFake := if env.pageFlipRet = 0 then true else false, flagFail := false,
                func := func, cbData := cbData }) := by
  simp only [ARMSOCDRI2ScheduleSwap, hok, reduceIte, do_flip_scheduleBump, hflip,
             Bool.true_eq_false, if_false, if_neg hret, if_neg hsc]

/-! ### Concrete base scenario used by witnesses and counterexamples

Buffer 1 is the BackLeft source (backed by bo 50 via pixmap 10, export
name 100, framebuffer 7), buffer 2 the FrontLeft destination (bo 51 via
pixmap 11, export name 200, framebuffer 8), both 640×480; the drawable
exists and its own pixmap is 11. -/

def baseSt : SwapState :=
  { pixBo := fun p => if p = 10 then 50 else if p = 11 then 51 else 0
  , bo := fun b => if b = 50 then ⟨100, 7, 640, 480⟩
                   else if b = 51 then ⟨200, 8, 640, 480⟩ else ⟨0, 0, 0, 0⟩
  , boRef := fun _ => 1
  , pixRef := fun _ => 1
  , bufs := fun i =>
      if i = 1 then ⟨Attachment.BackLeft, 100, [some 10, none, none], 0, 3, 1, true⟩
      else if i = 2 then ⟨Attachment.FrontLeft, 200, [some 11], 0, 1, 1, false⟩
      else ⟨Attachment.Other, 0, [], 0, 0, 0, false⟩
  , drawExists := true, drawPix := 11, pending_flips := 0, notifyLog := []
  , scanout := none, copies := 0, flipReqs := 0, addFbAttempts := 0, completedCmds := [] }

def baseEnv : Env :=
  { noFlip := false, drawIsWindow := true, dri2CanFlip := true, driNumBufs := 4
  , useFlipEvents := true, pageFlipRet := 1, allocCmdOk := true, allocBufOk := true
  , allocRingOk := true, addFbOk := true, createPix := some (12, 52), freshBoName := 300
  , newFbId := 9, drawW := 640, drawH := 480 }

/-! ### C10 -/

/-- C10: if `ScheduleSwap` cannot allocate its internal command
structure, it reports failure (`FALSE`) with no state change at all: in
particular neither buffer's reference count changes, no bo reference is
taken, `pending_flips` is untouched, and no flip request or copy is
issued. -/
theorem C10_schedule_alloc_fail_no_change (env : Env) (st : SwapState)
    (client dstId srcId func cbData : Nat) (h : env.allocCmdOk = false) :
    ARMSOCDRI2ScheduleSwap env st client dstId srcId func cbData = (false, st, none) ∧
    (∀ i, ((ARMSOCDRI2ScheduleSwap env st client dstId srcId func cbData).2.1.bufs i).refcnt
        = (st.bufs i).refcnt) ∧
    (ARMSOCDRI2ScheduleSwap env st client dstId srcId func cbData).2.1.boRef = st.boRef ∧
    (ARMSOCDRI2ScheduleSwap env st client dstId srcId func cbData).2.1.pending_flips
        = st.pending_flips ∧
    (ARMSOCDRI2ScheduleSwap env st client dstId srcId func cbData).2.1.flipReqs = st.flipReqs ∧
    (ARMSOCDRI2ScheduleSwap env st client dstId srcId func cbData).2.1.copies = st.copies := by
  unfold ARMSOCDRI2ScheduleSwap
  simp [h]

/-- Witness for C10 at the concrete base scenario. -/
theorem C10_schedule_alloc_fail_no_change_witness :
    { baseEnv with allocCmdOk := false }.allocCmdOk = false ∧
    ARMSOCDRI2ScheduleSwap { baseEnv with allocCmdOk := false } baseSt 77 2 1 5 6
      = (false, baseSt, none) :=
  ⟨rfl, (C10_schedule_alloc_fail_no_change { baseEnv with allocCmdOk := false }
      baseSt 77 2 1 5 6 rfl).1⟩

/-! ### C3 -/

/-- C3: `do_flip` is true exactly when both buffers' backing objects
have an attached framebuffer, the drawable is flip-eligible (flipping
not disabled by the user option, the drawable is a window, and the DRI2
core reports it flip-capable), and the two backing objects have equal
width and height; consequently a width or height mismatch makes
`do_flip` false, and whenever `do_flip` is false a `ScheduleSwap` call
takes the blit path (one `CopyArea`, no page-flip request). -/
theorem C3_do_flip_characterization (env : Env) (st : SwapState) (srcId dstId : Nat) :
    (do_flip env st srcId dstId = true ↔
      ((st.bo (boFromBuffer st srcId)).fbId ≠ 0 ∧
       (st.bo (boFromBuffer st dstId)).fbId ≠ 0 ∧
       (env.noFlip = false ∧ env.drawIsWindow = true ∧ env.dri2CanFlip = true) ∧
       (st.bo (boFromBuffer st srcId)).width = (st.bo (boFromBuffer st dstId)).width ∧
       (st.bo (boFromBuffer st srcId)).height = (st.bo (boFromBuffer st dstId)).height)) ∧
    ((st.bo (boFromBuffer st srcId)).width ≠ (st.bo (boFromBuffer st dstId)).width →
       do_flip env st srcId dstId = false) ∧
    ((st.bo (boFromBuffer st srcId)).height ≠ (st.bo (boFromBuffer st dstId)).height →
       do_flip env st srcId dstId = false) ∧
    (∀ client func cbData, env.allocCmdOk = true → do_flip env st srcId dstId = false →
       (ARMSOCDRI2ScheduleSwap env st client dstId srcId func cbData).2.1.copies
           = st.copies + 1 ∧
       (ARMSOCDRI2ScheduleSwap env st client dstId srcId func cbData).2.1.flipReqs
           = st.flipReqs) := by
  have hiff : do_flip env st srcId dstId = true ↔
      ((st.bo (boFromBuffer st srcId)).fbId ≠ 0 ∧
       (st.bo (boFromBuffer st dstId)).fbId ≠ 0 ∧
       (env.noFlip = false ∧ env.drawIsWindow = true ∧ env.dri2CanFlip = true) ∧
       (st.bo (boFromBuffer st srcId)).width = (st.bo (boFromBuffer st dstId)).width ∧
       (st.bo (boFromBuffer st srcId)).height = (st.bo (boFromBuffer st dstId)).height) := by
    simp only [do_flip, Bool.and_eq_true, decide_eq_true_eq]
    constructor
    · rintro ⟨⟨⟨⟨h1, h2⟩, h3⟩, h4⟩, h5⟩
      refine ⟨h1, h2, ?_, h4, h5⟩
      unfold canflip at h3
      by_cases hn : env.noFlip
      · simp [hn] at h3
      · simp only [hn, Bool.false_eq_true, if_false, Bool.and_eq_true] at h3
        exact ⟨by simpa using hn, h3.1, h3.2⟩
    · rintro ⟨h1, h2, ⟨hn, hw, hc⟩, h4, h5⟩
      exact ⟨⟨⟨⟨h1, h2⟩, by simp [canflip, hn, hw, hc]⟩, h4⟩, h5⟩
  refine ⟨hiff, ?_, ?_, ?_⟩
  · intro hne
    cases h : do_flip env st srcId dstId
    · rfl
    · exact absurd (hiff.mp h).2.2.2.1 hne
  · intro hne
    cases h : do_flip env st srcId dstId
    · rfl
    · exact absurd (hiff.mp h).2.2.2.2 hne
  · intro client func cbData hok hflip0
    rw [schedule_blit env st client dstId srcId func cbData hok hflip0]
    have hR := swapCompleteFinish_release env
      (ARMSOCDRI2CopyRegion (scheduleBump st srcId dstId))
      { ctype := DRI2_BLIT_COMPLETE, client := client, srcId := srcId, dstId := dstId,
        swapCount := -1, flagFake := false, flagFail := false,
        func := func, cbData := cbData }
    constructor
    · rw [show (true, swapCompleteFinish env
            (ARMSOCDRI2CopyRegion (scheduleBump st srcId dstId))
            { ctype := DRI2_BLIT_COMPLETE, client := client, srcId := srcId,
              dstId := dstId, swapCount := -1, flagFake := false, flagFail := false,
              func := func, cbData := cbData },
          (none : Option SwapCmd)).2.1
          = swapCompleteFinish env (ARMSOCDRI2CopyRegion (scheduleBump st srcId dstId))
            { ctype := DRI2_BLIT_COMPLETE, client := client, srcId := srcId,
              dstId := dstId, swapCount := -1, flagFake := false, flagFail := false,
              func := func, cbData := cbData } from rfl, hR.2.2.1]
      simp [ARMSOCDRI2CopyRegion, (scheduleBump_frame st srcId dstId).1]
    · rw [show (true, swapCompleteFinish env
            (ARMSOCDRI2CopyRegion (scheduleBump st srcId dstId))
            { ctype := DRI2_BLIT_COMPLETE, client := client, srcId := srcId,
              dstId := dstId, swapCount := -1, flagFake := false, flagFail := false,
              func := func, cbData := cbData },
          (none : Option SwapCmd)).2.1
          = swapCompleteFinish env (ARMSOCDRI2CopyRegion (scheduleBump st srcId dstId))
            { ctype := DRI2_BLIT_COMPLETE, client := client, srcId := srcId,
              dstId := dstId, swapCount := -1, flagFake := false, flagFail := false,
              func := func, cbData := cbData } from rfl, hR.2.2.2.1]
      simp [ARMSOCDRI2CopyRegion, (scheduleBump_frame st srcId dstId).2.1]

/-- Witness for C3 at the base scenario (where `do_flip` is true and all
five conditions hold). -/
theorem C3_do_flip_characterization_witness :
    do_flip baseEnv baseSt 1 2 = true ∧
    ((baseSt.bo (boFromBuffer baseSt 1)).fbId ≠ 0 ∧
     (baseSt.bo (boFromBuffer baseSt 2)).fbId ≠ 0 ∧
     (baseEnv.noFlip = false ∧ baseEnv.drawIsWindow = true ∧ baseEnv.dri2CanFlip = true) ∧
     (baseSt.bo (boFromBuffer baseSt 1)).width = (baseSt.bo (boFromBuffer baseSt 2)).width ∧
     (baseSt.bo (boFromBuffer baseSt 1)).height
        = (baseSt.bo (boFromBuffer baseSt 2)).height) :=
  ⟨by decide, (C3_do_flip_characterization baseEnv baseSt 1 2).1.mp (by decide)⟩

/-! ### CreateBuffer characterization -/

theorem set_zero_getD {α : Type} (l : List (Option α)) (v : Option α) (h : l ≠ []) :
    (l.set 0 v).getD 0 none = v := by
  cases l <;> simp_all [List.set]

/-- What a successful `ARMSOCDRI2CreateBuffer` returns: ring of
`driNumBufs - 1` slots for a multi-buffered BackLeft buffer (else one
slot), current slot 0, refcount 1; and when the drawable is not
flip-eligible, no attach was attempted and the fresh bo carries no
framebuffer. -/
theorem createBuffer_some (env : Env) (st : SwapState) (att : Attachment)
    (st' : SwapState) (buf : Buf)
    (h : ARMSOCDRI2CreateBuffer env st att = (st', some buf)) :
    buf.currentPixmap = 0 ∧ buf.refcnt = 1 ∧
    buf.numPixmaps = (if att = Attachment.BackLeft ∧ 2 < env.driNumBufs
        then env.driNumBufs - 1 else 1) ∧
    0 < buf.numPixmaps ∧
    buf.attachment = att ∧
    (canflip env = false → att ≠ Attachment.FrontLeft →
        buf.attempted_fb_alloc = false ∧
        (st'.bo (st'.pixBo (bufPix buf 0))).fbId = 0) := by
  have hpos : 0 < (if att = Attachment.BackLeft ∧ 2 < env.driNumBufs
      then env.driNumBufs - 1 else 1) := by
    by_cases hcond : att = Attachment.BackLeft ∧ 2 < env.driNumBufs
    · obtain ⟨h1, h2⟩ := hcond
      rw [if_pos ⟨h1, h2⟩]
      omega
    · rw [if_neg hcond]
      omega
  simp only [ARMSOCDRI2CreateBuffer] at h
  by_cases hb : env.allocBufOk = false
  · simp [hb] at h
  · rw [if_neg hb] at h
    by_cases hatt : att = Attachment.FrontLeft
    · subst hatt
      simp only [reduceIte] at h
      by_cases hr : env.allocRingOk = false
      · simp [hr] at h
      · rw [if_neg hr] at h
        rw [if_neg (by simp : ¬ (canflip env = true ∧
            Attachment.FrontLeft ≠ Attachment.FrontLeft))] at h
        simp only [Prod.mk.injEq, Option.some.injEq] at h
        obtain ⟨hst, hbuf⟩ := h
        subst hbuf
        refine ⟨rfl, rfl, by simp, ?_, rfl, ?_⟩
        · simpa using hpos
        · intro _ hne
          exact absurd rfl hne
    · rw [if_neg hatt] at h
      simp only [createpix] at h
      cases hc : env.createPix with
      | none => simp [hc] at h
      | some pb =>
          simp only [hc] at h
          by_cases hr : env.allocRingOk = false
          · simp [hr] at h
          · rw [if_neg hr] at h
            by_cases hcf : canflip env = true
            · rw [if_pos ⟨hcf, hatt⟩] at h
              simp only [Prod.mk.injEq, Option.some.injEq] at h
              obtain ⟨hst, hbuf⟩ := h
              subst hbuf
              refine ⟨rfl, rfl, by simp, by simpa using hpos, rfl, ?_⟩
              intro hcf2 _
              rw [hcf] at hcf2
              cases hcf2
            · rw [if_neg (by intro hx; exact hcf hx.1)] at h
              simp only [Prod.mk.injEq, Option.some.injEq] at h
              obtain ⟨hst, hbuf⟩ := h
              subst hbuf
              subst hst
              refine ⟨rfl, rfl, by simp, by simpa using hpos, rfl, ?_⟩
              intro _ _
              refine ⟨rfl, ?_⟩
              have hset : ((if decide (att = Attachment.BackLeft ∧ 2 < env.driNumBufs) = true
                  then List.replicate (env.driNumBufs - 1) (none : Option Nat)
                  else [none]).set 0 (some pb.1)).getD 0 none = some pb.1 := by
                apply set_zero_getD
                split
                · next hcond =>
                    have h2 : 2 < env.driNumBufs := (of_decide_eq_true hcond).2
                    intro hrep
                    have := congrArg List.length hrep
                    simp at this
                    omega
                · simp
              simp only [bufPix, hset, Option.getD_some, updFn]
              simp

/-! ### C9 -/

/-- C9: the lazy attachment policy.  (a) A non-FrontLeft buffer created
while flip-ineligible has `attempted_fb_alloc = false` and no
framebuffer on its bo.  (b) On a reuse notification with the drawable
now flip-eligible, no attempt made yet, and no framebuffer attached,
exactly one attach attempt happens and `attempted_fb_alloc` becomes true
regardless of the attempt's outcome.  (c) If the drawable is now not
flip-eligible and a framebuffer is attached, the framebuffer is removed
and `attempted_fb_alloc` resets to false with no new attach attempt.
(d) A FrontLeft buffer is left untouched. -/
theorem C9_lazy_attach_policy (env : Env) (st : SwapState) (bufId : Nat) (att : Attachment) :
    (canflip env = false → att ≠ Attachment.FrontLeft →
      ∀ st' buf, ARMSOCDRI2CreateBuffer env st att = (st', some buf) →
        buf.attempted_fb_alloc = false ∧
        (st'.bo (st'.pixBo (bufPix buf 0))).fbId = 0) ∧
    (canflip env = true → (st.bufs bufId).attachment ≠ Attachment.FrontLeft →
      (st.bufs bufId).attempted_fb_alloc = false →
      (st.bo (st.pixBo (bufPix (st.bufs bufId) 0))).fbId = 0 →
        (ARMSOCDRI2ReuseBufferNotify env st bufId).addFbAttempts = st.addFbAttempts + 1 ∧
        ((ARMSOCDRI2ReuseBufferNotify env st bufId).bufs bufId).attempted_fb_alloc = true) ∧
    (canflip env = false → (st.bufs bufId).attachment ≠ Attachment.FrontLeft →
      (st.bo (st.pixBo (bufPix (st.bufs bufId) 0))).fbId ≠ 0 →
        ((ARMSOCDRI2ReuseBufferNotify env st bufId).bufs bufId).attempted_fb_alloc = false ∧
        ((ARMSOCDRI2ReuseBufferNotify env st bufId).bo
            (st.pixBo (bufPix (st.bufs bufId) 0))).fbId = 0 ∧
        (ARMSOCDRI2ReuseBufferNotify env st bufId).addFbAttempts = st.addFbAttempts) ∧
    ((st.bufs bufId).attachment = Attachment.FrontLeft →
      ARMSOCDRI2ReuseBufferNotify env st bufId = st) := by
  refine ⟨?_, ?_, ?_, ?_⟩
  · intro hcan hne st' buf h
    exact (createBuffer_some env st att st' buf h).2.2.2.2.2 hcan hne
  · intro h1 h2 h3 h4
    simp only [ARMSOCDRI2ReuseBufferNotify]
    rw [if_neg h2,
        if_pos (show canflip env = true ∧ (st.bufs bufId).attempted_fb_alloc = false ∧
            (st.bo (st.pixBo (bufPix (st.bufs bufId) 0))).fbId = 0 from ⟨h1, h3, h4⟩),
        if_neg (show ¬ (canflip env = false ∧
            (st.bo (st.pixBo (bufPix (st.bufs bufId) 0))).fbId ≠ 0) by simp [h1])]
    unfold armsoc_bo_add_fb
    split <;> simp [updBuf, updFn]
  · intro h1 h2 h3
    simp only [ARMSOCDRI2ReuseBufferNotify]
    rw [if_neg h2,
        if_neg (show ¬ (canflip env = true ∧ (st.bufs bufId).attempted_fb_alloc = false ∧
            (st.bo (st.pixBo (bufPix (st.bufs bufId) 0))).fbId = 0) by simp [h1]),
        if_pos (show canflip env = false ∧
            (st.bo (st.pixBo (bufPix (st.bufs bufId) 0))).fbId ≠ 0 from ⟨h1, h3⟩)]
    simp [armsoc_bo_rm_fb, updBuf, updFn]
  · intro h
    simp only [ARMSOCDRI2ReuseBufferNotify]
    rw [if_pos h]

/-- Concrete reuse-notification scenario for the C9 witness: the back
buffer has no framebuffer yet and no attempt recorded. -/
def reuseSt : SwapState :=
  { baseSt with
      bufs := fun i =>
        if i = 1 then ⟨Attachment.BackLeft, 100, [some 10, none, none], 0, 3, 1, false⟩
        else baseSt.bufs i,
      bo := fun b => if b = 50 then ⟨100, 0, 640, 480⟩ else baseSt.bo b }

/-- Witness for C9: at the concrete scenario, the reuse notification
performs exactly one attach attempt and marks the buffer. -/
theorem C9_lazy_attach_policy_witness :
    (canflip baseEnv = true ∧
     (reuseSt.bufs 1).attachment ≠ Attachment.FrontLeft ∧
     (reuseSt.bufs 1).attempted_fb_alloc = false ∧
     (reuseSt.bo (reuseSt.pixBo (bufPix (reuseSt.bufs 1) 0))).fbId = 0) ∧
    ((ARMSOCDRI2ReuseBufferNotify baseEnv reuseSt 1).addFbAttempts
        = reuseSt.addFbAttempts + 1 ∧
     ((ARMSOCDRI2ReuseBufferNotify baseEnv reuseSt 1).bufs 1).attempted_fb_alloc = true) :=
  ⟨⟨by decide, by decide, by decide, by decide⟩,
   (C9_lazy_attach_policy baseEnv reuseSt 1 Attachment.BackLeft).2.1
     (by decide) (by decide) (by decide) (by decide)⟩

/-! ### Ring advancement: C6 and C7 -/

/-- Reuse branch of `nextBuffer`: the target slot is already allocated,
so the buffer just moves to it and republishes its bo name. -/
theorem nextBuffer_reuse (env : Env) (st : SwapState) (bufId p : Nat)
    (hn : 2 < env.driNumBufs)
    (hp : (st.bufs bufId).pPixmaps.getD
        (((st.bufs bufId).currentPixmap + 1) % (st.bufs bufId).numPixmaps) none = some p) :
    nextBuffer env st bufId = updBuf st bufId
      { st.bufs bufId with
          currentPixmap := ((st.bufs bufId).currentPixmap + 1) % (st.bufs bufId).numPixmaps,
          name := (st.bo (st.pixBo p)).boName } := by
  simp only [nextBuffer]
  rw [if_neg (by omega), hp]

/-- Failure branch of `nextBuffer`: the target slot is missing and the
allocation fails, so the slot index rolls back and the ring shrinks. -/
theorem nextBuffer_alloc_fail (env : Env) (st : SwapState) (bufId : Nat)
    (hn : 2 < env.driNumBufs)
    (hp : (st.bufs bufId).pPixmaps.getD
        (((st.bufs bufId).currentPixmap + 1) % (st.bufs bufId).numPixmaps) none = none)
    (ha : (allocNextBuffer env st).2 = none) :
    nextBuffer env st bufId = updBuf (allocNextBuffer env st).1 bufId
      { st.bufs bufId with
          currentPixmap :=
            ((st.bufs bufId).currentPixmap + 1) % (st.bufs bufId).numPixmaps - 1,
          numPixmaps :=
            ((st.bufs bufId).currentPixmap + 1) % (st.bufs bufId).numPixmaps - 1 + 1 } := by
  simp only [nextBuffer]
  rw [if_neg (by omega), hp, ha]

/-- C6: ring advancement for a more-than-double-buffered chain.
(1) If the target slot `(currentPixmap + 1) % numPixmaps` already holds
a pixmap, it is reused: the slot index advances, its bo's name is
published, and nothing is allocated.  (2) Hence advancing `n` times
through a fully allocated ring of depth `K` cycles the slot index
through `(c + n) % K` with the ring, the pixmap map, the bo store and
the attach-attempt count all unchanged.  (3) If the target slot is
missing and allocation fails, the target was not slot 0, the slot index
rolls back to the previous slot, and `numPixmaps` shrinks to
`currentPixmap + 1`. -/
theorem C6_ring_advancement (env : Env) (st : SwapState) (bufId : Nat)
    (hn : 2 < env.driNumBufs) :
    (∀ p, (st.bufs bufId).pPixmaps.getD
        (((st.bufs bufId).currentPixmap + 1) % (st.bufs bufId).numPixmaps) none = some p →
      ((nextBuffer env st bufId).bufs bufId).currentPixmap
          = ((st.bufs bufId).currentPixmap + 1) % (st.bufs bufId).numPixmaps ∧
      ((nextBuffer env st bufId).bufs bufId).name = (st.bo (st.pixBo p)).boName ∧
      ((nextBuffer env st bufId).bufs bufId).pPixmaps = (st.bufs bufId).pPixmaps ∧
      ((nextBuffer env st bufId).bufs bufId).numPixmaps = (st.bufs bufId).numPixmaps ∧
      (nextBuffer env st bufId).pixBo = st.pixBo ∧
      (nextBuffer env st bufId).bo = st.bo ∧
      (nextBuffer env st bufId).addFbAttempts = st.addFbAttempts) ∧
    ((∀ i, i < (st.bufs bufId).numPixmaps →
        ((st.bufs bufId).pPixmaps.getD i none).isSome = true) →
      (st.bufs bufId).currentPixmap < (st.bufs bufId).numPixmaps →
      ∀ n,
        (((fun s => nextBuffer env s bufId)^[n] st).bufs bufId).currentPixmap
            = ((st.bufs bufId).currentPixmap + n) % (st.bufs bufId).numPixmaps ∧
        (((fun s => nextBuffer env s bufId)^[n] st).bufs bufId).pPixmaps
            = (st.bufs bufId).pPixmaps ∧
        (((fun s => nextBuffer env s bufId)^[n] st).bufs bufId).numPixmaps
            = (st.bufs bufId).numPixmaps ∧
        ((fun s => nextBuffer env s bufId)^[n] st).pixBo = st.pixBo ∧
        ((fun s => nextBuffer env s bufId)^[n] st).bo = st.bo ∧
        ((fun s => nextBuffer env s bufId)^[n] st).addFbAttempts = st.addFbAttempts) ∧
    ((st.bufs bufId).pPixmaps.getD
        (((st.bufs bufId).currentPixmap + 1) % (st.bufs bufId).numPixmaps) none = none →
      (allocNextBuffer env st).2 = none →
      ((st.bufs bufId).pPixmaps.getD 0 none).isSome = true →
      (st.bufs bufId).currentPixmap < (st.bufs bufId).numPixmaps →
        ((st.bufs bufId).currentPixmap + 1) % (st.bufs bufId).numPixmaps ≠ 0 ∧
        ((st.bufs bufId).currentPixmap + 1) % (st.bufs bufId).numPixmaps
            = (st.bufs bufId).currentPixmap + 1 ∧
        ((nextBuffer env st bufId).bufs bufId).currentPixmap
            = (st.bufs bufId).currentPixmap ∧
        ((nextBuffer env st bufId).bufs bufId).numPixmaps
            = (st.bufs bufId).currentPixmap + 1 ∧
        ((nextBuffer env st bufId).bufs bufId).pPixmaps = (st.bufs bufId).pPixmaps) := by
  refine ⟨?_, ?_, ?_⟩
  · intro p hp
    rw [nextBuffer_reuse env st bufId p hn hp]
    simp [updBuf, updFn]
  · intro hfull hcur n
    induction n with
    | zero =>
        simp [Nat.mod_eq_of_lt hcur]
    | succ n ih =>
        obtain ⟨ih1, ih2, ih3, ih4, ih5, ih6⟩ := ih
        have hK : 0 < (st.bufs bufId).numPixmaps := by omega
        set sN := (fun s => nextBuffer env s bufId)^[n] st with hsN
        have htgt : ((sN.bufs bufId).currentPixmap + 1) % (sN.bufs bufId).numPixmaps
            < (st.bufs bufId).numPixmaps := by
          rw [ih3]
          exact Nat.mod_lt _ hK
        have hsome : ((sN.bufs bufId).pPixmaps.getD
            (((sN.bufs bufId).currentPixmap + 1) % (sN.bufs bufId).numPixmaps)
            none).isSome = true := by
          rw [ih2]
          exact hfull _ htgt
        obtain ⟨p, hp⟩ := Option.isSome_iff_exists.mp hsome
        rw [Function.iterate_succ_apply', ← hsN,
            nextBuffer_reuse env sN bufId p hn hp]
        refine ⟨?_, ?_, ?_, ?_, ?_, ?_⟩
        · simp [updBuf, updFn, ih1, ih3, Nat.mod_add_mod, Nat.add_assoc]
        · simp [updBuf, updFn, ih2]
        · simp [updBuf, updFn, ih3]
        · simp [updBuf, updFn, ih4]
        · simp [updBuf, updFn, ih5]
        · simp [updBuf, updFn, ih6]
  · intro hp ha h0 hcur
    have hK : 0 < (st.bufs bufId).numPixmaps := by omega
    have hne : ((st.bufs bufId).currentPixmap + 1) % (st.bufs bufId).numPixmaps ≠ 0 := by
      intro hz
      rw [hz] at hp
      rw [hp] at h0
      cases h0
    have heq : ((st.bufs bufId).currentPixmap + 1) % (st.bufs bufId).numPixmaps
        = (st.bufs bufId).currentPixmap + 1 := by
      rcases Nat.lt_or_ge ((st.bufs bufId).currentPixmap + 1) (st.bufs bufId).numPixmaps
        with hlt | hge
      · exact Nat.mod_eq_of_lt hlt
      · have hE : (st.bufs bufId).currentPixmap + 1 = (st.bufs bufId).numPixmaps := by omega
        rw [hE, Nat.mod_self] at hne
        exact absurd rfl hne
    have hfold := (allocNextBuffer_frame env st).1
    rw [nextBuffer_alloc_fail env st bufId hn hp ha]
    refine ⟨hne, heq, ?_, ?_, ?_⟩ <;> simp [updBuf, updFn, heq]

/-- Fully allocated three-slot ring for the C6 witness. -/
def ringSt : SwapState :=
  { baseSt with
      bufs := fun i =>
        if i = 1 then ⟨Attachment.BackLeft, 100, [some 10, some 13, some 14], 0, 3, 1, true⟩
        else baseSt.bufs i,
      pixBo := fun p =>
        if p = 10 then 50 else if p = 13 then 53
        else if p = 14 then 54 else if p = 11 then 51 else 0 }

/-- Witness for C6: three advances around the fully allocated three-slot
ring return to slot 0 with nothing allocated. -/
theorem C6_ring_advancement_witness :
    (2 < baseEnv.driNumBufs ∧
     (∀ i, i < (ringSt.bufs 1).numPixmaps →
        ((ringSt.bufs 1).pPixmaps.getD i none).isSome = true) ∧
     (ringSt.bufs 1).currentPixmap < (ringSt.bufs 1).numPixmaps) ∧
    ((((fun s => nextBuffer baseEnv s 1)^[3] ringSt).bufs 1).currentPixmap
        = ((ringSt.bufs 1).currentPixmap + 3) % (ringSt.bufs 1).numPixmaps ∧
     (((fun s => nextBuffer baseEnv s 1)^[3] ringSt).bufs 1).pPixmaps
        = (ringSt.bufs 1).pPixmaps ∧
     (((fun s => nextBuffer baseEnv s 1)^[3] ringSt).bufs 1).numPixmaps
        = (ringSt.bufs 1).numPixmaps ∧
     ((fun s => nextBuffer baseEnv s 1)^[3] ringSt).pixBo = ringSt.pixBo ∧
     ((fun s => nextBuffer baseEnv s 1)^[3] ringSt).bo = ringSt.bo ∧
     ((fun s => nextBuffer baseEnv s 1)^[3] ringSt).addFbAttempts = ringSt.addFbAttempts) :=
  ⟨⟨by decide, by decide, by decide⟩,
   (C6_ring_advancement baseEnv ringSt 1 (by decide)).2.1 (by decide) (by decide) 3⟩

/-- One `nextBuffer` call never grows the ring and keeps the slot index
inside it. -/
theorem nextBuffer_ring_step (env : Env) (st : SwapState) (bufId : Nat)
    (hcur : (st.bufs bufId).currentPixmap < (st.bufs bufId).numPixmaps) :
    ((nextBuffer env st bufId).bufs bufId).numPixmaps ≤ (st.bufs bufId).numPixmaps ∧
    ((nextBuffer env st bufId).bufs bufId).currentPixmap
        < ((nextBuffer env st bufId).bufs bufId).numPixmaps := by
  have hK : 0 < (st.bufs bufId).numPixmaps := by omega
  have htgt : ((st.bufs bufId).currentPixmap + 1) % (st.bufs bufId).numPixmaps
      < (st.bufs bufId).numPixmaps := Nat.mod_lt _ hK
  have hb := (allocNextBuffer_frame env st).1
  simp only [nextBuffer]
  split
  · exact ⟨le_refl _, hcur⟩
  · split
    · constructor <;> simp [updBuf, updFn, htgt]
    · split
      · constructor <;> simp [updBuf, updFn, htgt]
      · constructor <;> (simp [updBuf, updFn, hb]; try omega)

/-- Iterated ring advancement with per-step environments. -/
def runRing (envs : List Env) (st : SwapState) (bufId : Nat) : SwapState :=
  envs.foldl (fun s e => nextBuffer e s bufId) st

/-- C7: the ring depth of a buffer only ever shrinks.  (a) Creation
establishes `numPixmaps = driNumBufs - 1` for a BackLeft buffer in a
more-than-double-buffered configuration (else 1), with `currentPixmap =
0` strictly below it.  (b) Along any sequence of ring advancements (the
only operation that writes `numPixmaps` or `currentPixmap`), the depth
never increases and the slot index stays strictly below the depth,
including after degradations. -/
theorem C7_ring_depth_monotone :
    (∀ (env : Env) (st : SwapState) (att : Attachment) (st' : SwapState) (buf : Buf),
      ARMSOCDRI2CreateBuffer env st att = (st', some buf) →
        buf.numPixmaps = (if att = Attachment.BackLeft ∧ 2 < env.driNumBufs
            then env.driNumBufs - 1 else 1) ∧
        buf.currentPixmap = 0 ∧
        buf.currentPixmap < buf.numPixmaps) ∧
    (∀ (envs : List Env) (st : SwapState) (bufId : Nat),
      (st.bufs bufId).currentPixmap < (st.bufs bufId).numPixmaps →
        ((runRing envs st bufId).bufs bufId).numPixmaps ≤ (st.bufs bufId).numPixmaps ∧
        ((runRing envs st bufId).bufs bufId).currentPixmap
            < ((runRing envs st bufId).bufs bufId).numPixmaps) := by
  constructor
  · intro env st att st' buf h
    obtain ⟨h1, h2, h3, h4, h5, h6⟩ := createBuffer_some env st att st' buf h
    exact ⟨h3, h1, by omega⟩
  · intro envs
    induction envs with
    | nil => intro st bufId hcur; exact ⟨le_refl _, hcur⟩
    | cons e es ih =>
        intro st bufId hcur
        obtain ⟨hs1, hs2⟩ := nextBuffer_ring_step e st bufId hcur
        obtain ⟨hi1, hi2⟩ := ih (nextBuffer e st bufId) bufId hs2
        exact ⟨le_trans hi1 hs1, hi2⟩

/-- Witness for C7: a failing advancement on the three-slot ring shrinks
the depth from 3 to 1 and keeps the slot index inside it. -/
theorem C7_ring_depth_monotone_witness :
    (baseSt.bufs 1).currentPixmap < (baseSt.bufs 1).numPixmaps ∧
    (((runRing [{ baseEnv with createPix := none }] baseSt 1).bufs 1).numPixmaps
        ≤ (baseSt.bufs 1).numPixmaps ∧
     ((runRing [{ baseEnv with createPix := none }] baseSt 1).bufs 1).currentPixmap
        < ((runRing [{ baseEnv with createPix := none }] baseSt 1).bufs 1).numPixmaps) :=
  ⟨by decide,
   C7_ring_depth_monotone.2 [{ baseEnv with createPix := none }] baseSt 1 (by decide)⟩

/-! ### Observables of a full schedule-and-complete cycle -/

theorem boFromBuffer_copyRegion (st : SwapState) (i : Nat) :
    boFromBuffer (ARMSOCDRI2CopyRegion st) i = boFromBuffer st i := rfl

/-- Completion of a command whose input state carries exactly the extra
references taken by `scheduleBump`: every counter returns to its
pre-schedule value, the notifier fires unless the command failed or the
drawable is gone, and the command is recorded. -/
theorem finishObservables (env : Env) (st stMid : SwapState) (cmdX : SwapCmd)
    (hre : ∀ i, (stMid.bufs i).refcnt = (st.bufs i).refcnt
        + (if i = cmdX.srcId then 1 else 0) + (if i = cmdX.dstId then 1 else 0))
    (hbo : ∀ b, stMid.boRef b = st.boRef b
        + (if b = boFromBuffer st cmdX.srcId then 1 else 0)
        + (if b = boFromBuffer st cmdX.dstId then 1 else 0))
    (hbos : boFromBuffer stMid cmdX.srcId = boFromBuffer st cmdX.srcId)
    (hbod : boFromBuffer stMid cmdX.dstId = boFromBuffer st cmdX.dstId)
    (hp : stMid.pending_flips = st.pending_flips + 1)
    (hnl : stMid.notifyLog = st.notifyLog)
    (hcc : stMid.completedCmds = st.completedCmds)
    (hde : stMid.drawExists = st.drawExists) :
    (swapCompleteFinish env stMid cmdX).notifyLog = st.notifyLog ++
        (if cmdX.flagFail = true ∨ st.drawExists = false then []
         else [⟨cmdX.client, cmdX.ctype, cmdX.func, cmdX.cbData⟩]) ∧
    (∀ i, ((swapCompleteFinish env stMid cmdX).bufs i).refcnt = (st.bufs i).refcnt) ∧
    (∀ b, (swapCompleteFinish env stMid cmdX).boRef b = st.boRef b) ∧
    (swapCompleteFinish env stMid cmdX).pending_flips = st.pending_flips ∧
    (swapCompleteFinish env stMid cmdX).completedCmds = st.completedCmds ++ [cmdX] := by
  obtain ⟨hR1, hR2, hR3, hR4, hR5, hR6, hR7⟩ := swapCompleteFinish_release env stMid cmdX
  refine ⟨?_, ?_, ?_, ?_, ?_⟩
  · rw [swapCompleteFinish_notifyLog, hnl, hde]
  · intro i
    rw [hR6 i, hre i]
    by_cases h1 : i = cmdX.srcId <;> by_cases h2 : i = cmdX.dstId <;>
      simp [h1, h2] <;> omega
  · intro b
    rw [hR7 b, hbos, hbod, hbo b]
    by_cases h1 : b = boFromBuffer st cmdX.srcId <;>
      by_cases h2 : b = boFromBuffer st cmdX.dstId <;>
      simp [h1, h2] <;> omega
  · rw [hR1, hp]
    omega
  · rw [hR2, hcc]

/-- When `ScheduleSwap` already completed the command, draining is a
no-op. -/
theorem scheduleDrain_now (env : Env) (st : SwapState)
    (client dstId srcId func cbData : Nat) (r : Bool) (stf : SwapState)
    (hS : ARMSOCDRI2ScheduleSwap env st client dstId srcId func cbData
        = (r, stf, none)) :
    scheduleAndDrain env st client dstId srcId func cbData = (r, stf) := by
  simp only [scheduleAndDrain, hS]

/-- When `ScheduleSwap` left a pending command, draining its events runs
the completion body once. -/
theorem scheduleDrain_later (env : Env) (st : SwapState)
    (client dstId srcId func cbData : Nat) (r : Bool) (stMid : SwapState)
    (cmdL : SwapCmd)
    (hS : ARMSOCDRI2ScheduleSwap env st client dstId srcId func cbData
        = (r, stMid, some cmdL))
    (hge : 0 < cmdL.swapCount) :
    ∃ k, scheduleAndDrain env st client dstId srcId func cbData
      = (r, swapCompleteFinish env stMid { cmdL with swapCount := k }) := by
  simp only [scheduleAndDrain, hS]
  have h1 : cmdL.swapCount.toNat = (cmdL.swapCount.toNat - 1) + 1 := by omega
  obtain ⟨k, hk⟩ := drainSwap_run env (cmdL.swapCount.toNat - 1) stMid cmdL (by omega)
  rw [h1, hk]
  exact ⟨k, rfl⟩

/-- `finishObservables` instantiated at the state left by the flip path
of `ScheduleSwap` (the reference-bumped state with the flip request
counted). -/
theorem finishBumpObservables (env : Env) (st : SwapState)
    (srcId dstId x t cl fn dt : Nat) (sc : Int) (fk fl : Bool) :
    (swapCompleteFinish env { scheduleBump st srcId dstId with flipReqs := x }
        (⟨t, cl, srcId, dstId, sc, fk, fl, fn, dt⟩ : SwapCmd)).notifyLog
      = st.notifyLog ++ (if fl = true ∨ st.drawExists = false then []
          else [⟨cl, t, fn, dt⟩]) ∧
    (∀ i, ((swapCompleteFinish env { scheduleBump st srcId dstId with flipReqs := x }
        (⟨t, cl, srcId, dstId, sc, fk, fl, fn, dt⟩ : SwapCmd)).bufs i).refcnt
      = (st.bufs i).refcnt) ∧
    (∀ b, (swapCompleteFinish env { scheduleBump st srcId dstId with flipReqs := x }
        (⟨t, cl, srcId, dstId, sc, fk, fl, fn, dt⟩ : SwapCmd)).boRef b = st.boRef b) ∧
    (swapCompleteFinish env { scheduleBump st srcId dstId with flipReqs := x }
        (⟨t, cl, srcId, dstId, sc, fk, fl, fn, dt⟩ : SwapCmd)).pending_flips
      = st.pending_flips ∧
    (swapCompleteFinish env { scheduleBump st srcId dstId with flipReqs := x }
        (⟨t, cl, srcId, dstId, sc, fk, fl, fn, dt⟩ : SwapCmd)).completedCmds
      = st.completedCmds ++ [⟨t, cl, srcId, dstId, sc, fk, fl, fn, dt⟩] :=
  finishObservables env st { scheduleBump st srcId dstId with flipReqs := x }
    ⟨t, cl, srcId, dstId, sc, fk, fl, fn, dt⟩
    (fun i => by simpa using (scheduleBump_bufs st srcId dstId i).1)
    (fun b => by simpa using scheduleBump_boRef st srcId dstId b)
    (by simpa using boFromBuffer_scheduleBump st srcId dstId srcId)
    (by simpa using boFromBuffer_scheduleBump st srcId dstId dstId)
    (by simpa using (scheduleBump_frame st srcId dstId).2.2.2.2.2.2.2.2)
    (by simpa using (scheduleBump_frame st srcId dstId).2.2.1)
    (by simpa using (scheduleBump_frame st srcId dstId).2.2.2.2.1)
    (by simpa using (scheduleBump_frame st srcId dstId).2.2.2.2.2.1)

/-- `finishObservables` instantiated at the state left by the blit path
of `ScheduleSwap`. -/
theorem finishCopyObservables (env : Env) (st : SwapState)
    (srcId dstId t cl fn dt : Nat) (sc : Int) (fk fl : Bool) :
    (swapCompleteFinish env (ARMSOCDRI2CopyRegion (scheduleBump st srcId dstId))
        (⟨t, cl, srcId, dstId, sc, fk, fl, fn, dt⟩ : SwapCmd)).notifyLog
      = st.notifyLog ++ (if fl = true ∨ st.drawExists = false then []
          else [⟨cl, t, fn, dt⟩]) ∧
    (∀ i, ((swapCompleteFinish env (ARMSOCDRI2CopyRegion (scheduleBump st srcId dstId))
        (⟨t, cl, srcId, dstId, sc, fk, fl, fn, dt⟩ : SwapCmd)).bufs i).refcnt
      = (st.bufs i).refcnt) ∧
    (∀ b, (swapCompleteFinish env (ARMSOCDRI2CopyRegion (scheduleBump st srcId dstId))
        (⟨t, cl, srcId, dstId, sc, fk, fl, fn, dt⟩ : SwapCmd)).boRef b = st.boRef b) ∧
    (swapCompleteFinish env (ARMSOCDRI2CopyRegion (scheduleBump st srcId dstId))
        (⟨t, cl, srcId, dstId, sc, fk, fl, fn, dt⟩ : SwapCmd)).pending_flips
      = st.pending_flips ∧
    (swapCompleteFinish env (ARMSOCDRI2CopyRegion (scheduleBump st srcId dstId))
        (⟨t, cl, srcId, dstId, sc, fk, fl, fn, dt⟩ : SwapCmd)).completedCmds
      = st.completedCmds ++ [⟨t, cl, srcId, dstId, sc, fk, fl, fn, dt⟩] :=
  finishObservables env st (ARMSOCDRI2CopyRegion (scheduleBump st srcId dstId))
    ⟨t, cl, srcId, dstId, sc, fk, fl, fn, dt⟩
    (fun i => by simpa [ARMSOCDRI2CopyRegion] using (scheduleBump_bufs st srcId dstId i).1)
    (fun b => by simpa [ARMSOCDRI2CopyRegion] using scheduleBump_boRef st srcId dstId b)
    (by simpa [boFromBuffer_copyRegion] using boFromBuffer_scheduleBump st srcId dstId srcId)
    (by simpa [boFromBuffer_copyRegion] using boFromBuffer_scheduleBump st srcId dstId dstId)
    (by simpa [ARMSOCDRI2CopyRegion] using (scheduleBump_frame st srcId dstId).2.2.2.2.2.2.2.2)
    (by simpa [ARMSOCDRI2CopyRegion] using (scheduleBump_frame st srcId dstId).2.2.1)
    (by simpa [ARMSOCDRI2CopyRegion] using (scheduleBump_frame st srcId dstId).2.2.2.2.1)
    (by simpa [ARMSOCDRI2CopyRegion] using (scheduleBump_frame st srcId dstId).2.2.2.2.2.1)

/-- Observables of a scheduled swap after all its expected page-flip
events have been delivered: the notifier fires exactly once unless the
flip failed or the drawable is gone; buffer and bo reference counts and
the in-flight counter return to their pre-schedule values; and exactly
one command is completed — failed iff the flip issuer errored, synthetic
iff it returned zero, of blit kind iff `do_flip` was false. -/
theorem scheduleAndDrain_observables (env : Env) (st : SwapState)
    (client dstId srcId func cbData : Nat) (hok : env.allocCmdOk = true) :
    (scheduleAndDrain env st client dstId srcId func cbData).2.notifyLog
      = st.notifyLog ++
        (if (do_flip env st srcId dstId = true ∧ env.pageFlipRet < 0)
            ∨ st.drawExists = false
         then []
         else [⟨client,
            if do_flip env st srcId dstId = true then DRI2_FLIP_COMPLETE
            else DRI2_BLIT_COMPLETE, func, cbData⟩]) ∧
    (∀ i, ((scheduleAndDrain env st client dstId srcId func cbData).2.bufs i).refcnt
        = (st.bufs i).refcnt) ∧
    (∀ b, (scheduleAndDrain env st client dstId srcId func cbData).2.boRef b
        = st.boRef b) ∧
    (scheduleAndDrain env st client dstId srcId func cbData).2.pending_flips
        = st.pending_flips ∧
    (∃ c, (scheduleAndDrain env st client dstId srcId func cbData).2.completedCmds
        = st.completedCmds ++ [c] ∧
      (c.flagFail = true ↔ (do_flip env st srcId dstId = true ∧ env.pageFlipRet < 0)) ∧
      (c.flagFake = true ↔ (do_flip env st srcId dstId = true ∧ env.pageFlipRet = 0)) ∧
      c.ctype = (if do_flip env st srcId dstId = true then DRI2_FLIP_COMPLETE
                 else DRI2_BLIT_COMPLETE) ∧
      c.client = client ∧ c.srcId = srcId ∧ c.dstId = dstId ∧
      c.func = func ∧ c.cbData = cbData) := by
  by_cases hflip : do_flip env st srcId dstId = true
  · by_cases hret : env.pageFlipRet < 0
    · by_cases hsc : (if env.useFlipEvents then -(env.pageFlipRet + 1) else 0) = 0
      · have hS := schedule_flip_fail_now env st client dstId srcId func cbData
          hok hflip hret hsc
        rw [scheduleDrain_now env st client dstId srcId func cbData _ _ hS]
        obtain ⟨hO1, hO2, hO3, hO4, hO5⟩ := finishBumpObservables env st srcId dstId
          ((scheduleBump st srcId dstId).flipReqs + 1)
          DRI2_FLIP_COMPLETE client func cbData (-1) false true
        refine ⟨?_, hO2, hO3, hO4, _, hO5, ?_, ?_, ?_, rfl, rfl, rfl, rfl, rfl⟩
        · rw [hO1]
          simp [hflip, hret]
        · simp [hflip, hret]
        · constructor
          · intro hx
            cases hx
          · rintro ⟨-, hz⟩
            omega
        · simp [hflip]
      · have hS := schedule_flip_fail_later env st client dstId srcId func cbData
          hok hflip hret hsc
        have hsc1 : 0 < (if env.useFlipEvents then -(env.pageFlipRet + 1) else 0) := by
          by_cases he : env.useFlipEvents <;> simp [he] at hsc ⊢ <;> omega
        obtain ⟨k, hk⟩ := scheduleDrain_later env st client dstId srcId func cbData
          _ _ _ hS hsc1
        rw [hk]
        obtain ⟨hO1, hO2, hO3, hO4, hO5⟩ := finishBumpObservables env st srcId dstId
          ((scheduleBump st srcId dstId).flipReqs + 1)
          DRI2_FLIP_COMPLETE client func cbData k false true
        refine ⟨?_, hO2, hO3, hO4, _, hO5, ?_, ?_, ?_, rfl, rfl, rfl, rfl, rfl⟩
        · rw [hO1]
          simp [hflip, hret]
        · simp [hflip, hret]
        · constructor
          · intro hx
            cases hx
          · rintro ⟨-, hz⟩
            omega
        · simp [hflip]
    · by_cases hsc : (if env.useFlipEvents then env.pageFlipRet else 0) = 0
      · have hS := schedule_flip_ok_now env st client dstId srcId func cbData
          hok hflip hret hsc
        rw [scheduleDrain_now env st client dstId srcId func cbData _ _ hS]
        obtain ⟨hO1, hO2, hO3, hO4, hO5⟩ := finishBumpObservables env st srcId dstId
          ((scheduleBump st srcId dstId).flipReqs + 1)
          DRI2_FLIP_COMPLETE client func cbData (-1)
          (if env.pageFlipRet = 0 then true else false) false
        refine ⟨?_, hO2, hO3, hO4, _, hO5, ?_, ?_, ?_, rfl, rfl, rfl, rfl, rfl⟩
        · rw [hO1]
          simp [hflip, hret]
        · simp [hflip, hret]
        · by_cases hz : env.pageFlipRet = 0 <;> simp [hz, hflip]
        · simp [hflip]
      · have hS := schedule_flip_ok_later env st client dstId srcId func cbData
          hok hflip hret hsc
        have hsc1 : 0 < (if env.useFlipEvents then env.pageFlipRet else 0) := by
          by_cases he : env.useFlipEvents <;> simp [he] at hsc ⊢ <;> omega
        have hz : ¬ env.pageFlipRet = 0 := by
          by_cases he : env.useFlipEvents <;> simp [he] at hsc <;> omega
        obtain ⟨k, hk⟩ := scheduleDrain_later env st client dstId srcId func cbData
          _ _ _ hS hsc1
        rw [hk]
        obtain ⟨hO1, hO2, hO3, hO4, hO5⟩ := finishBumpObservables env st srcId dstId
          ((scheduleBump st srcId dstId).flipReqs + 1)
          DRI2_FLIP_COMPLETE client func cbData k
          (if env.pageFlipRet = 0 then true else false) false
        refine ⟨?_, hO2, hO3, hO4, _, hO5, ?_, ?_, ?_, rfl, rfl, rfl, rfl, rfl⟩
        · rw [hO1]
          simp [hflip, hret]
        · simp [hflip, hret]
        · simp [hz, hflip]
        · simp [hflip]
  · have hflip0 : do_flip env st srcId dstId = false := by
      cases h : do_flip env st srcId dstId
      · rfl
      · exact absurd h hflip
    have hS := schedule_blit env st client dstId srcId func cbData hok hflip0
    rw [scheduleDrain_now env st client dstId srcId func cbData _ _ hS]
    obtain ⟨hO1, hO2, hO3, hO4, hO5⟩ := finishCopyObservables env st srcId dstId
      DRI2_BLIT_COMPLETE client func cbData (-1) false false
    refine ⟨?_, hO2, hO3, hO4, _, hO5, ?_, ?_, ?_, rfl, rfl, rfl, rfl, rfl⟩
    · rw [hO1]
      simp [hflip0]
    · simp [hflip0]
    · simp [hflip0]
    · simp [hflip0]

/-! ### C1 -/

/-- Counterexample to C1 as stated: a concrete scheduled swap that takes
the failed-flip path (`drmmode_page_flip` returns -1).  The flip request
was issued, the command ran to completion and was freed, yet the
external completion notifier was invoked zero times — not exactly
once. -/
theorem C1_counterexample :
    (ARMSOCDRI2ScheduleSwap { baseEnv with pageFlipRet := -1 } baseSt 77 2 1 5 6).2.1.flipReqs
        = 1 ∧
    (ARMSOCDRI2ScheduleSwap { baseEnv with pageFlipRet := -1 } baseSt 77 2 1 5 6).2.2
        = none ∧
    (ARMSOCDRI2ScheduleSwap { baseEnv with pageFlipRet := -1 }
        baseSt 77 2 1 5 6).2.1.completedCmds.length = 1 ∧
    (ARMSOCDRI2ScheduleSwap { baseEnv with pageFlipRet := -1 } baseSt 77 2 1 5 6).2.1.notifyLog
        = [] := by
  decide

/-- C1 (amended): once a scheduled swap command has fully completed, the
external notifier `DRI2SwapComplete` has been invoked exactly once with
the command's client, kind, func and data on the successful-flip,
synthetic-flip and blit paths — provided the drawable still resolves —
and zero times on the failed-flip path or when the drawable is gone. -/
theorem C1_notify_exactly_once_unless_failed_or_gone (env : Env) (st : SwapState)
    (client dstId srcId func cbData : Nat) (hok : env.allocCmdOk = true) :
    (scheduleAndDrain env st client dstId srcId func cbData).2.notifyLog
      = st.notifyLog ++
        (if (do_flip env st srcId dstId = true ∧ env.pageFlipRet < 0)
            ∨ st.drawExists = false
         then []
         else [⟨client,
            if do_flip env st srcId dstId = true then DRI2_FLIP_COMPLETE
            else DRI2_BLIT_COMPLETE, func, cbData⟩]) :=
  (scheduleAndDrain_observables env st client dstId srcId func cbData hok).1

/-- Witness for the amended C1: on a successful one-event flip the
notifier fires exactly once with kind flip. -/
theorem C1_notify_exactly_once_unless_failed_or_gone_witness :
    baseEnv.allocCmdOk = true ∧
    (scheduleAndDrain baseEnv baseSt 77 2 1 5 6).2.notifyLog
      = baseSt.notifyLog ++
        (if (do_flip baseEnv baseSt 1 2 = true ∧ baseEnv.pageFlipRet < 0)
            ∨ baseSt.drawExists = false
         then []
         else [⟨77, if do_flip baseEnv baseSt 1 2 = true then DRI2_FLIP_COMPLETE
                    else DRI2_BLIT_COMPLETE, 5, 6⟩]) :=
  ⟨rfl, C1_notify_exactly_once_unless_failed_or_gone baseEnv baseSt 77 2 1 5 6 rfl⟩

/-! ### C8 -/

/-- C8: reference-count transitions are paired.  While a command is in
flight, `ScheduleSwap` has incremented each of the two buffers' counts
by one and taken one reference on each backing bo; after the command has
fully completed, every buffer's count, every bo's count and the
in-flight counter equal their pre-schedule values. -/
theorem C8_refcount_pairing (env : Env) (st : SwapState)
    (client dstId srcId func cbData : Nat) (hok : env.allocCmdOk = true) :
    (∀ i, ((scheduleAndDrain env st client dstId srcId func cbData).2.bufs i).refcnt
        = (st.bufs i).refcnt) ∧
    (∀ b, (scheduleAndDrain env st client dstId srcId func cbData).2.boRef b
        = st.boRef b) ∧
    (scheduleAndDrain env st client dstId srcId func cbData).2.pending_flips
        = st.pending_flips ∧
    (∀ (r : Bool) (stMid : SwapState) (cmdL : SwapCmd),
      ARMSOCDRI2ScheduleSwap env st client dstId srcId func cbData
          = (r, stMid, some cmdL) →
        (∀ i, (stMid.bufs i).refcnt = (st.bufs i).refcnt
            + (if i = srcId then 1 else 0) + (if i = dstId then 1 else 0)) ∧
        (∀ b, stMid.boRef b = st.boRef b
            + (if b = boFromBuffer st srcId then 1 else 0)
            + (if b = boFromBuffer st dstId then 1 else 0))) := by
  obtain ⟨hM1, hM2, hM3, hM4, hM5⟩ :=
    scheduleAndDrain_observables env st client dstId srcId func cbData hok
  refine ⟨hM2, hM3, hM4, ?_⟩
  intro r stMid cmdL hEq
  by_cases hflip : do_flip env st srcId dstId = true
  · by_cases hret : env.pageFlipRet < 0
    · by_cases hsc : (if env.useFlipEvents then -(env.pageFlipRet + 1) else 0) = 0
      · rw [schedule_flip_fail_now env st client dstId srcId func cbData
            hok hflip hret hsc] at hEq
        simp at hEq
      · rw [schedule_flip_fail_later env st client dstId srcId func cbData
            hok hflip hret hsc] at hEq
        simp only [Prod.mk.injEq, Option.some.injEq] at hEq
        obtain ⟨-, hmid, -⟩ := hEq
        subst hmid
        constructor
        · intro i
          simpa using (scheduleBump_bufs st srcId dstId i).1
        · intro b
          simpa using scheduleBump_boRef st srcId dstId b
    · by_cases hsc : (if env.useFlipEvents then env.pageFlipRet else 0) = 0
      · rw [schedule_flip_ok_now env st client dstId srcId func cbData
            hok hflip hret hsc] at hEq
        simp at hEq
      · rw [schedule_flip_ok_later env st client dstId srcId func cbData
            hok hflip hret hsc] at hEq
        simp only [Prod.mk.injEq, Option.some.injEq] at hEq
        obtain ⟨-, hmid, -⟩ := hEq
        subst hmid
        constructor
        · intro i
          simpa using (scheduleBump_bufs st srcId dstId i).1
        · intro b
          simpa using scheduleBump_boRef st srcId dstId b
  · have hflip0 : do_flip env st srcId dstId = false := by
      cases h : do_flip env st srcId dstId
      · rfl
      · exact absurd h hflip
    rw [schedule_blit env st client dstId srcId func cbData hok hflip0] at hEq
    simp at hEq

/-- Witness for C8 at the base scenario (one-event successful flip). -/
theorem C8_refcount_pairing_witness :
    baseEnv.allocCmdOk = true ∧
    ((scheduleAndDrain baseEnv baseSt 77 2 1 5 6).2.bufs 1).refcnt
        = (baseSt.bufs 1).refcnt ∧
    ((scheduleAndDrain baseEnv baseSt 77 2 1 5 6).2.bufs 2).refcnt
        = (baseSt.bufs 2).refcnt ∧
    (scheduleAndDrain baseEnv baseSt 77 2 1 5 6).2.boRef 50 = baseSt.boRef 50 ∧
    (scheduleAndDrain baseEnv baseSt 77 2 1 5 6).2.boRef 51 = baseSt.boRef 51 ∧
    (scheduleAndDrain baseEnv baseSt 77 2 1 5 6).2.pending_flips = baseSt.pending_flips :=
  ⟨rfl,
   (C8_refcount_pairing baseEnv baseSt 77 2 1 5 6 rfl).1 1,
   (C8_refcount_pairing baseEnv baseSt 77 2 1 5 6 rfl).1 2,
   (C8_refcount_pairing baseEnv baseSt 77 2 1 5 6 rfl).2.1 50,
   (C8_refcount_pairing baseEnv baseSt 77 2 1 5 6 rfl).2.1 51,
   (C8_refcount_pairing baseEnv baseSt 77 2 1 5 6 rfl).2.2.1⟩

/-- `swapCompleteFinish_skip` instantiated at the flip-path state: when
the command failed, the drawable is gone, the kind is blit, or the flip
was fake, completion leaves export names, the pixmap map, the slot
indices and the published scanout exactly as before the schedule. -/
theorem finishBumpSkip (env : Env) (st : SwapState) (srcId dstId x t cl fn dt : Nat)
    (sc : Int) (fk fl : Bool)
    (h : fl = true ∨ st.drawExists = false ∨ t = DRI2_BLIT_COMPLETE ∨ fk = true) :
    (swapCompleteFinish env { scheduleBump st srcId dstId with flipReqs := x }
        (⟨t, cl, srcId, dstId, sc, fk, fl, fn, dt⟩ : SwapCmd)).scanout = st.scanout ∧
    (swapCompleteFinish env { scheduleBump st srcId dstId with flipReqs := x }
        (⟨t, cl, srcId, dstId, sc, fk, fl, fn, dt⟩ : SwapCmd)).pixBo = st.pixBo ∧
    (∀ i, ((swapCompleteFinish env { scheduleBump st srcId dstId with flipReqs := x }
        (⟨t, cl, srcId, dstId, sc, fk, fl, fn, dt⟩ : SwapCmd)).bufs i).name
      = (st.bufs i).name) ∧
    (∀ i, ((swapCompleteFinish env { scheduleBump st srcId dstId with flipReqs := x }
        (⟨t, cl, srcId, dstId, sc, fk, fl, fn, dt⟩ : SwapCmd)).bufs i).currentPixmap
      = (st.bufs i).currentPixmap) := by
  obtain ⟨hS1, hS2, hS3, hS4, hS5, hS6, hS7⟩ := swapCompleteFinish_skip env
    { scheduleBump st srcId dstId with flipReqs := x }
    ⟨t, cl, srcId, dstId, sc, fk, fl, fn, dt⟩ h
  refine ⟨?_, ?_, ?_, ?_⟩
  · rw [hS1]
    simpa using (scheduleBump_frame st srcId dstId).2.2.2.1
  · rw [hS2]
    simpa using (scheduleBump_frame st srcId dstId).2.2.2.2.2.2.1
  · intro i
    rw [hS4 i]
    simpa using (scheduleBump_bufs st srcId dstId i).2.1
  · intro i
    rw [hS5 i]
    simpa using (scheduleBump_bufs st srcId dstId i).2.2.2.1

/-! ### C4 -/

/-- Counterexample to C4 as stated: with page-flip events in use and
`drmmode_page_flip` returning -2, the command is flagged as a failed
flip but does **not** complete immediately — `ScheduleSwap` leaves it
pending with one outstanding event, the in-flight counter still raised
and both extra buffer references still held. -/
theorem C4_counterexample :
    (ARMSOCDRI2ScheduleSwap { baseEnv with pageFlipRet := -2 } baseSt 77 2 1 5 6).1
        = false ∧
    (ARMSOCDRI2ScheduleSwap { baseEnv with pageFlipRet := -2 } baseSt 77 2 1 5 6).2.2
        = some ⟨DRI2_FLIP_COMPLETE, 77, 1, 2, 1, false, true, 5, 6⟩ ∧
    (ARMSOCDRI2ScheduleSwap { baseEnv with pageFlipRet := -2 }
        baseSt 77 2 1 5 6).2.1.completedCmds = [] ∧
    (ARMSOCDRI2ScheduleSwap { baseEnv with pageFlipRet := -2 }
        baseSt 77 2 1 5 6).2.1.pending_flips = 1 ∧
    ((ARMSOCDRI2ScheduleSwap { baseEnv with pageFlipRet := -2 }
        baseSt 77 2 1 5 6).2.1.bufs 1).refcnt = 2 := by
  decide

/-- C4 (amended): when the flip issuer returns a negative result the
command is flagged FailedFlip and `ScheduleSwap` reports failure; it
completes within `ScheduleSwap` itself exactly when the computed
remaining-event count `-(ret+1)` is zero (page-flip events unused, or
`ret = -1`), and otherwise after the remaining events arrive.  Its
completion performs no notification, no buffer-identity exchange and no
scanout publish, but still releases both extra buffer references and
both captured bo references and decrements the in-flight counter. -/
theorem C4_failed_flip_behavior (env : Env) (st : SwapState)
    (client dstId srcId func cbData : Nat)
    (hok : env.allocCmdOk = true) (hflip : do_flip env st srcId dstId = true)
    (hret : env.pageFlipRet < 0) :
    (ARMSOCDRI2ScheduleSwap env st client dstId srcId func cbData).1 = false ∧
    ((ARMSOCDRI2ScheduleSwap env st client dstId srcId func cbData).2.2 = none ↔
        (env.useFlipEvents = false ∨ env.pageFlipRet = -1)) ∧
    (scheduleAndDrain env st client dstId srcId func cbData).2.notifyLog
        = st.notifyLog ∧
    (∀ i, ((scheduleAndDrain env st client dstId srcId func cbData).2.bufs i).name
        = (st.bufs i).name) ∧
    (scheduleAndDrain env st client dstId srcId func cbData).2.pixBo = st.pixBo ∧
    (scheduleAndDrain env st client dstId srcId func cbData).2.scanout = st.scanout ∧
    (∀ i, ((scheduleAndDrain env st client dstId srcId func cbData).2.bufs i).refcnt
        = (st.bufs i).refcnt) ∧
    (∀ b, (scheduleAndDrain env st client dstId srcId func cbData).2.boRef b
        = st.boRef b) ∧
    (scheduleAndDrain env st client dstId srcId func cbData).2.pending_flips
        = st.pending_flips ∧
    (∃ c, (scheduleAndDrain env st client dstId srcId func cbData).2.completedCmds
        = st.completedCmds ++ [c] ∧ c.flagFail = true ∧ c.ctype = DRI2_FLIP_COMPLETE) := by
  obtain ⟨hM1, hM2, hM3, hM4, hM5⟩ :=
    scheduleAndDrain_observables env st client dstId srcId func cbData hok
  have hskip : ∀ x sc,
      (swapCompleteFinish env { scheduleBump st srcId dstId with flipReqs := x }
          (⟨DRI2_FLIP_COMPLETE, client, srcId, dstId, sc, false, true, func,
            cbData⟩ : SwapCmd)).scanout = st.scanout ∧
      (swapCompleteFinish env { scheduleBump st srcId dstId with flipReqs := x }
          (⟨DRI2_FLIP_COMPLETE, client, srcId, dstId, sc, false, true, func,
            cbData⟩ : SwapCmd)).pixBo = st.pixBo ∧
      (∀ i, ((swapCompleteFinish env
          { scheduleBump st srcId dstId with flipReqs := x }
          (⟨DRI2_FLIP_COMPLETE, client, srcId, dstId, sc, false, true, func,
            cbData⟩ : SwapCmd)).bufs i).name = (st.bufs i).name) ∧
      (∀ i, ((swapCompleteFinish env
          { scheduleBump st srcId dstId with flipReqs := x }
          (⟨DRI2_FLIP_COMPLETE, client, srcId, dstId, sc, false, true, func,
            cbData⟩ : SwapCmd)).bufs i).currentPixmap
          = (st.bufs i).currentPixmap) :=
    fun x sc => finishBumpSkip env st srcId dstId x DRI2_FLIP_COMPLETE client func
      cbData sc false true (Or.inl rfl)
  refine ⟨?_, ?_, ?_, ?_, ?_, ?_, hM2, hM3, hM4, ?_⟩
  · by_cases hsc : (if env.useFlipEvents then -(env.pageFlipRet + 1) else 0) = 0
    · rw [schedule_flip_fail_now env st client dstId srcId func cbData
          hok hflip hret hsc]
    · rw [schedule_flip_fail_later env st client dstId srcId func cbData
          hok hflip hret hsc]
  · by_cases hsc : (if env.useFlipEvents then -(env.pageFlipRet + 1) else 0) = 0
    · rw [schedule_flip_fail_now env st client dstId srcId func cbData
          hok hflip hret hsc]
      simp only [true_iff]
      cases he : env.useFlipEvents
      · exact Or.inl rfl
      · right
        rw [he] at hsc
        simp at hsc
        omega
    · rw [schedule_flip_fail_later env st client dstId srcId func cbData
          hok hflip hret hsc]
      simp only [reduceCtorEq, false_iff]
      rintro (he | hm1)
      · rw [he] at hsc
        simp at hsc
      · rw [hm1] at hsc
        simp at hsc
  · rw [hM1]
    simp [hflip, hret]
  · by_cases hsc : (if env.useFlipEvents then -(env.pageFlipRet + 1) else 0) = 0
    · have hS := schedule_flip_fail_now env st client dstId srcId func cbData
        hok hflip hret hsc
      rw [scheduleDrain_now env st client dstId srcId func cbData _ _ hS]
      exact (hskip _ _).2.2.1
    · have hS := schedule_flip_fail_later env st client dstId srcId func cbData
        hok hflip hret hsc
      have hsc1 : 0 < (if env.useFlipEvents then -(env.pageFlipRet + 1) else 0) := by
        by_cases he : env.useFlipEvents <;> simp [he] at hsc ⊢ <;> omega
      obtain ⟨k, hk⟩ := scheduleDrain_later env st client dstId srcId func cbData
        _ _ _ hS hsc1
      rw [hk]
      exact (hskip _ _).2.2.1
  · by_cases hsc : (if env.useFlipEvents then -(env.pageFlipRet + 1) else 0) = 0
    · have hS := schedule_flip_fail_now env st client dstId srcId func cbData
        hok hflip hret hsc
      rw [scheduleDrain_now env st client dstId srcId func cbData _ _ hS]
      exact (hskip _ _).2.1
    · have hS := schedule_flip_fail_later env st client dstId srcId func cbData
        hok hflip hret hsc
      have hsc1 : 0 < (if env.useFlipEvents then -(env.pageFlipRet + 1) else 0) := by
        by_cases he : env.useFlipEvents <;> simp [he] at hsc ⊢ <;> omega
      obtain ⟨k, hk⟩ := scheduleDrain_later env st client dstId srcId func cbData
        _ _ _ hS hsc1
      rw [hk]
      exact (hskip _ _).2.1
  · by_cases hsc : (if env.useFlipEvents then -(env.pageFlipRet + 1) else 0) = 0
    · have hS := schedule_flip_fail_now env st client dstId srcId func cbData
        hok hflip hret hsc
      rw [scheduleDrain_now env st client dstId srcId func cbData _ _ hS]
      exact (hskip _ _).1
    · have hS := schedule_flip_fail_later env st client dstId srcId func cbData
        hok hflip hret hsc
      have hsc1 : 0 < (if env.useFlipEvents then -(env.pageFlipRet + 1) else 0) := by
        by_cases he : env.useFlipEvents <;> simp [he] at hsc ⊢ <;> omega
      obtain ⟨k, hk⟩ := scheduleDrain_later env st client dstId srcId func cbData
        _ _ _ hS hsc1
      rw [hk]
      exact (hskip _ _).1
  · obtain ⟨c, hc1, hc2, hc3, hc4, hc5, hc6, hc7, hc8, hc9⟩ := hM5
    exact ⟨c, hc1, hc2.mpr ⟨hflip, hret⟩, by rw [hc4]; simp [hflip]⟩

/-- Witness for the amended C4 at the immediately-completing failed flip
(`ret = -1`, events in use). -/
theorem C4_failed_flip_behavior_witness :
    ({ baseEnv with pageFlipRet := -1 } : Env).allocCmdOk = true ∧
    do_flip { baseEnv with pageFlipRet := -1 } baseSt 1 2 = true ∧
    ({ baseEnv with pageFlipRet := -1 } : Env).pageFlipRet < 0 ∧
    (ARMSOCDRI2ScheduleSwap { baseEnv with pageFlipRet := -1 } baseSt 77 2 1 5 6).1
        = false ∧
    (scheduleAndDrain { baseEnv with pageFlipRet := -1 } baseSt 77 2 1 5 6).2.notifyLog
        = baseSt.notifyLog ∧
    (scheduleAndDrain { baseEnv with pageFlipRet := -1 } baseSt 77 2 1 5 6).2.pending_flips
        = baseSt.pending_flips :=
  ⟨rfl, by decide, by decide,
   (C4_failed_flip_behavior { baseEnv with pageFlipRet := -1 } baseSt 77 2 1 5 6
      rfl (by decide) (by decide)).1,
   (C4_failed_flip_behavior { baseEnv with pageFlipRet := -1 } baseSt 77 2 1 5 6
      rfl (by decide) (by decide)).2.2.1,
   (C4_failed_flip_behavior { baseEnv with pageFlipRet := -1 } baseSt 77 2 1 5 6
      rfl (by decide) (by decide)).2.2.2.2.2.2.2.2.1⟩

/-! ### C2 -/

/-- Counterexample to C2 as stated: a concrete synthetic flip
(`drmmode_page_flip` returns 0).  The command completes synchronously
and the client is notified with kind flip, but the buffer-identity
exchange is **skipped**: the two export names keep their pre-swap values
100 and 200 (an exchange would have made them 200 and 100), the slot
ring does not advance, and no scanout is published. -/
theorem C2_counterexample :
    (ARMSOCDRI2ScheduleSwap { baseEnv with pageFlipRet := 0 } baseSt 77 2 1 5 6).1
        = true ∧
    (ARMSOCDRI2ScheduleSwap { baseEnv with pageFlipRet := 0 } baseSt 77 2 1 5 6).2.2
        = none ∧
    (ARMSOCDRI2ScheduleSwap { baseEnv with pageFlipRet := 0 }
        baseSt 77 2 1 5 6).2.1.notifyLog = [⟨77, DRI2_FLIP_COMPLETE, 5, 6⟩] ∧
    ((ARMSOCDRI2ScheduleSwap { baseEnv with pageFlipRet := 0 }
        baseSt 77 2 1 5 6).2.1.bufs 1).name = 100 ∧
    ((ARMSOCDRI2ScheduleSwap { baseEnv with pageFlipRet := 0 }
        baseSt 77 2 1 5 6).2.1.bufs 2).name = 200 ∧
    ((ARMSOCDRI2ScheduleSwap { baseEnv with pageFlipRet := 0 }
        baseSt 77 2 1 5 6).2.1.bufs 1).currentPixmap = 0 ∧
    (ARMSOCDRI2ScheduleSwap { baseEnv with pageFlipRet := 0 }
        baseSt 77 2 1 5 6).2.1.scanout = none ∧
    ¬(((ARMSOCDRI2ScheduleSwap { baseEnv with pageFlipRet := 0 }
          baseSt 77 2 1 5 6).2.1.bufs 1).name = 200 ∧
      ((ARMSOCDRI2ScheduleSwap { baseEnv with pageFlipRet := 0 }
          baseSt 77 2 1 5 6).2.1.bufs 2).name = 100) := by
  decide

/-- C2 (amended): when the flip issuer returns 0, the command is flagged
SyntheticFlip and completes synchronously within `ScheduleSwap` with
result `TRUE`; its completion notifies the client once with kind flip
(when the drawable resolves) and releases all references, but — unlike a
real flip — it performs no buffer-identity exchange, no ring
advancement, and no scanout publish. -/
theorem C2_synthetic_flip_completes_in_schedule (env : Env) (st : SwapState)
    (client dstId srcId func cbData : Nat)
    (hok : env.allocCmdOk = true) (hflip : do_flip env st srcId dstId = true)
    (hz : env.pageFlipRet = 0) :
    (ARMSOCDRI2ScheduleSwap env st client dstId srcId func cbData).1 = true ∧
    (ARMSOCDRI2ScheduleSwap env st client dstId srcId func cbData).2.2 = none ∧
    (ARMSOCDRI2ScheduleSwap env st client dstId srcId func cbData).2.1.notifyLog
      = st.notifyLog ++ (if st.drawExists = false then []
          else [⟨client, DRI2_FLIP_COMPLETE, func, cbData⟩]) ∧
    (∀ i, ((ARMSOCDRI2ScheduleSwap env st client dstId srcId func cbData).2.1.bufs i).name
        = (st.bufs i).name) ∧
    (∀ i, ((ARMSOCDRI2ScheduleSwap env st client dstId srcId
        func cbData).2.1.bufs i).currentPixmap = (st.bufs i).currentPixmap) ∧
    (ARMSOCDRI2ScheduleSwap env st client dstId srcId func cbData).2.1.pixBo
        = st.pixBo ∧
    (ARMSOCDRI2ScheduleSwap env st client dstId srcId func cbData).2.1.scanout
        = st.scanout ∧
    (∀ i, ((ARMSOCDRI2ScheduleSwap env st client dstId srcId
        func cbData).2.1.bufs i).refcnt = (st.bufs i).refcnt) ∧
    (∀ b, (ARMSOCDRI2ScheduleSwap env st client dstId srcId func cbData).2.1.boRef b
        = st.boRef b) ∧
    (ARMSOCDRI2ScheduleSwap env st client dstId srcId func cbData).2.1.pending_flips
        = st.pending_flips ∧
    (∃ c, (ARMSOCDRI2ScheduleSwap env st client dstId srcId
        func cbData).2.1.completedCmds = st.completedCmds ++ [c] ∧
      c.flagFake = true ∧ c.flagFail = false ∧ c.ctype = DRI2_FLIP_COMPLETE) := by
  have hret : ¬ env.pageFlipRet < 0 := by omega
  have hsc : (if env.useFlipEvents then env.pageFlipRet else 0) = 0 := by
    cases he : env.useFlipEvents <;> simp [he, hz]
  have hS := schedule_flip_ok_now env st client dstId srcId func cbData
    hok hflip hret hsc
  obtain ⟨hO1, hO2, hO3, hO4, hO5⟩ := finishBumpObservables env st srcId dstId
    ((scheduleBump st srcId dstId).flipReqs + 1)
    DRI2_FLIP_COMPLETE client func cbData (-1)
    (if env.pageFlipRet = 0 then true else false) false
  obtain ⟨hK1, hK2, hK3, hK4⟩ := finishBumpSkip env st srcId dstId
    ((scheduleBump st srcId dstId).flipReqs + 1)
    DRI2_FLIP_COMPLETE client func cbData (-1)
    (if env.pageFlipRet = 0 then true else false) false
    (Or.inr (Or.inr (Or.inr (by simp [hz]))))
  rw [hS]
  refine ⟨rfl, rfl, ?_, hK3, hK4, hK2, hK1, hO2, hO3, hO4,
          _, hO5, by simp [hz], rfl, rfl⟩
  rw [hO1]
  simp

/-- Witness for the amended C2 at the concrete base scenario with
`ret = 0`. -/
theorem C2_synthetic_flip_completes_in_schedule_witness :
    ({ baseEnv with pageFlipRet := 0 } : Env).allocCmdOk = true ∧
    do_flip { baseEnv with pageFlipRet := 0 } baseSt 1 2 = true ∧
    ({ baseEnv with pageFlipRet := 0 } : Env).pageFlipRet = 0 ∧
    (ARMSOCDRI2ScheduleSwap { baseEnv with pageFlipRet := 0 } baseSt 77 2 1 5 6).1
        = true ∧
    (ARMSOCDRI2ScheduleSwap { baseEnv with pageFlipRet := 0 }
        baseSt 77 2 1 5 6).2.1.notifyLog
      = baseSt.notifyLog ++ (if baseSt.drawExists = false then []
          else [⟨77, DRI2_FLIP_COMPLETE, 5, 6⟩]) ∧
    ((ARMSOCDRI2ScheduleSwap { baseEnv with pageFlipRet := 0 }
        baseSt 77 2 1 5 6).2.1.bufs 1).name = (baseSt.bufs 1).name :=
  ⟨rfl, by decide, rfl,
   (C2_synthetic_flip_completes_in_schedule { baseEnv with pageFlipRet := 0 }
      baseSt 77 2 1 5 6 rfl (by decide) rfl).1,
   (C2_synthetic_flip_completes_in_schedule { baseEnv with pageFlipRet := 0 }
      baseSt 77 2 1 5 6 rfl (by decide) rfl).2.2.1,
   (C2_synthetic_flip_completes_in_schedule { baseEnv with pageFlipRet := 0 }
      baseSt 77 2 1 5 6 rfl (by decide) rfl).2.2.2.1 1⟩

/-! ### C5 -/

/-- Counterexample to C5 as stated: completing a non-failed flip command
whose drawable id no longer resolves.  The references are released and
the in-flight counter drops, but the scanout publish (step 5) is
**skipped** — `scanout` stays `none` instead of being set to the new
destination bo — contradicting the claim that steps 5–7 still run. -/
theorem C5_counterexample :
    (ARMSOCDRI2SwapComplete baseEnv { baseSt with drawExists := false }
        ⟨DRI2_FLIP_COMPLETE, 77, 1, 2, 1, false, false, 5, 6⟩).2 = none ∧
    (ARMSOCDRI2SwapComplete baseEnv { baseSt with drawExists := false }
        ⟨DRI2_FLIP_COMPLETE, 77, 1, 2, 1, false, false, 5, 6⟩).1.scanout = none ∧
    (ARMSOCDRI2SwapComplete baseEnv { baseSt with drawExists := false }
        ⟨DRI2_FLIP_COMPLETE, 77, 1, 2, 1, false, false, 5, 6⟩).1.pending_flips = -1 ∧
    ((ARMSOCDRI2SwapComplete baseEnv { baseSt with drawExists := false }
        ⟨DRI2_FLIP_COMPLETE, 77, 1, 2, 1, false, false, 5, 6⟩).1.bufs 1).refcnt = 0 ∧
    (ARMSOCDRI2SwapComplete baseEnv { baseSt with drawExists := false }
        ⟨DRI2_FLIP_COMPLETE, 77, 1, 2, 1, false, false, 5, 6⟩).1.notifyLog = [] := by
  decide

/-- C5 (amended): when the drawable lookup fails during completion of a
non-failed command, the completion skips the buffer-identity exchange,
the client notification **and the scanout publish** (steps 3–5), but
still releases the two extra buffer references, releases the captured
pre-exchange bo handles, and decrements the in-flight counter
(steps 6–7). -/
theorem C5_drawable_gone_completion (env : Env) (st : SwapState) (cmd : SwapCmd)
    (hsc : ¬ 0 < cmd.swapCount - 1) (hfail : cmd.flagFail = false)
    (hd : st.drawExists = false) :
    (ARMSOCDRI2SwapComplete env st cmd).2 = none ∧
    (ARMSOCDRI2SwapComplete env st cmd).1.notifyLog = st.notifyLog ∧
    (ARMSOCDRI2SwapComplete env st cmd).1.scanout = st.scanout ∧
    (ARMSOCDRI2SwapComplete env st cmd).1.pixBo = st.pixBo ∧
    (∀ i, ((ARMSOCDRI2SwapComplete env st cmd).1.bufs i).name = (st.bufs i).name) ∧
    (∀ i, ((ARMSOCDRI2SwapComplete env st cmd).1.bufs i).refcnt
        = (st.bufs i).refcnt - (if i = cmd.srcId then 1 else 0)
                             - (if i = cmd.dstId then 1 else 0)) ∧
    (∀ b, (ARMSOCDRI2SwapComplete env st cmd).1.boRef b
        = st.boRef b - (if b = boFromBuffer st cmd.srcId then 1 else 0)
                     - (if b = boFromBuffer st cmd.dstId then 1 else 0)) ∧
    (ARMSOCDRI2SwapComplete env st cmd).1.pending_flips = st.pending_flips - 1 ∧
    (ARMSOCDRI2SwapComplete env st cmd).1.completedCmds
        = st.completedCmds ++ [{ cmd with swapCount := cmd.swapCount - 1 }] := by
  rw [swapComplete_fin env st cmd hsc]
  obtain ⟨hR1, hR2, hR3, hR4, hR5, hR6, hR7⟩ :=
    swapCompleteFinish_release env st { cmd with swapCount := cmd.swapCount - 1 }
  obtain ⟨hS1, hS2, hS3, hS4, hS5, hS6, hS7⟩ :=
    swapCompleteFinish_skip env st { cmd with swapCount := cmd.swapCount - 1 }
      (Or.inr (Or.inl hd))
  refine ⟨rfl, ?_, hS1, hS2, hS4, ?_, ?_, hR1, hR2⟩
  · rw [swapCompleteFinish_notifyLog]
    simp [hd]
  · intro i
    exact hR6 i
  · intro b
    exact hR7 b

/-- Witness for the amended C5 at the concrete drawable-gone
scenario. -/
theorem C5_drawable_gone_completion_witness :
    (¬ 0 < ((⟨DRI2_FLIP_COMPLETE, 77, 1, 2, 1, false, false, 5, 6⟩ : SwapCmd)).swapCount - 1) ∧
    ((⟨DRI2_FLIP_COMPLETE, 77, 1, 2, 1, false, false, 5, 6⟩ : SwapCmd)).flagFail = false ∧
    ({ baseSt with drawExists := false } : SwapState).drawExists = false ∧
    (ARMSOCDRI2SwapComplete baseEnv { baseSt with drawExists := false }
        ⟨DRI2_FLIP_COMPLETE, 77, 1, 2, 1, false, false, 5, 6⟩).1.notifyLog
      = ({ baseSt with drawExists := false } : SwapState).notifyLog ∧
    (ARMSOCDRI2SwapComplete baseEnv { baseSt with drawExists := false }
        ⟨DRI2_FLIP_COMPLETE, 77, 1, 2, 1, false, false, 5, 6⟩).1.pending_flips
      = ({ baseSt with drawExists := false } : SwapState).pending_flips - 1 :=
  ⟨by decide, rfl, rfl,
   (C5_drawable_gone_completion baseEnv { baseSt with drawExists := false }
      ⟨DRI2_FLIP_COMPLETE, 77, 1, 2, 1, false, false, 5, 6⟩
      (by decide) rfl rfl).2.1,
   (C5_drawable_gone_completion baseEnv { baseSt with drawExists := false }
      ⟨DRI2_FLIP_COMPLETE, 77, 1, 2, 1, false, false, 5, 6⟩
      (by decide) rfl rfl).2.2.2.2.2.2.2.1⟩

end ArmsocDRI2
